import Mathlib

/-
Verification of the extraction core of the pdf-extraction-website repository
(`pdf_extractor.py`).  The Python code is shallowly embedded here: text is
`List Char`, Python string operations are re-implemented explicitly, and the
regular-expression searches of the source are executed by a small backtracking
matcher (`mtch`) over a regex syntax tree, mirroring Python `re` semantics
(leftmost match, greedy/lazy priority, numbered capture groups, `\b`, `$`,
lookahead).  Each pattern literal of the source is transcribed into that
syntax at its call site, with the call site's flags (IGNORECASE / DOTALL)
baked in.  Excel/IO side effects are out of scope: the record-assembly
functions return their row lists.
-/

set_option maxRecDepth 1000000

namespace PdfExtractor

/-! ### Python string primitives -/

/-- Characters that Python `str.split()` / `str.strip()` and the regex class
`\s` treat as whitespace (ASCII subset; the report texts are ASCII). -/
def pySpace (c : Char) : Bool :=
  c = ' ' || c = '\t' || c = '\n' || c = '\r' || c = '\x0b' || c = '\x0c'

/-- Python `str.lower()` (ASCII). -/
def pyLower (s : List Char) : List Char := s.map Char.toLower

/-- Python `str.upper()` (ASCII). -/
def pyUpper (s : List Char) : List Char := s.map Char.toUpper

/-- Python `str.strip()`. -/
def pyStrip (s : List Char) : List Char :=
  ((s.dropWhile pySpace).reverse.dropWhile pySpace).reverse

/-- Python `str.split()` with no argument: split on whitespace runs,
dropping empty pieces. -/
def pySplitAux : List Char → List Char → List (List Char)
  | [], acc => if acc.isEmpty then [] else [acc.reverse]
  | c :: rest, acc =>
    if pySpace c then
      if acc.isEmpty then pySplitAux rest []
      else acc.reverse :: pySplitAux rest []
    else pySplitAux rest (c :: acc)

def pySplit (s : List Char) : List (List Char) := pySplitAux s []

/-- Does `hay` start with `needle`? -/
def startsWithSeq : List Char → List Char → Bool
  | [], _ => true
  | _ :: _, [] => false
  | n :: ns, h :: hs => n = h && startsWithSeq ns hs

/-- Python `needle in hay` (substring test). -/
def containsSeq (needle : List Char) : List Char → Bool
  | [] => startsWithSeq needle []
  | h :: hs => startsWithSeq needle (h :: hs) || containsSeq needle hs

/-- Case-insensitive substring test (`needle.lower() in hay.lower()`). -/
def containsCI (needle hay : List Char) : Bool :=
  containsSeq (pyLower needle) (pyLower hay)

/-- Python `hay.find(needle)`, as an `Option`. -/
def findSeq (needle : List Char) : List Char → Option Nat
  | [] => if startsWithSeq needle [] then some 0 else none
  | h :: hs =>
    if startsWithSeq needle (h :: hs) then some 0
    else (findSeq needle hs).map (· + 1)

/-- Python slice `s[a:b]` (for `0 ≤ a ≤ b`; out-of-range ends are clipped). -/
def pySlice (s : List Char) (a b : Nat) : List Char := (s.drop a).take (b - a)

/-- Python `s.replace(old, new)` for single characters. -/
def replaceChar (old new : Char) (s : List Char) : List Char :=
  s.map (fun c => if c = old then new else c)

/-- Python `s.replace(c, '')` for a single character: drop every occurrence. -/
def removeChar (c : Char) (s : List Char) : List Char := s.filter (· ≠ c)

/-- Python `re.sub(r'\s+', ' ', s)`: collapse every whitespace run to a
single space (`inRun` records whether the previous character was part of a
whitespace run already emitted as one space). -/
def collapseWsAux : Bool → List Char → List Char
  | _, [] => []
  | inRun, c :: rest =>
    if pySpace c then
      if inRun then collapseWsAux true rest
      else ' ' :: collapseWsAux true rest
    else c :: collapseWsAux false rest

def collapseWs (s : List Char) : List Char := collapseWsAux false s

/-- Split on a single separator character (Python `s.split(sep)`,
keeping empty pieces). -/
def splitOnChar (sep : Char) : List Char → List (List Char)
  | [] => [[]]
  | c :: rest =>
    let r := splitOnChar sep rest
    if c = sep then [] :: r
    else
      match r with
      | [] => [[c]]
      | p :: ps => (c :: p) :: ps

/-- Numeric value of a digit string (used for Python `int(...)` on strings
that are known to be all digits). -/
def digitsToNat (s : List Char) : Nat :=
  s.foldl (fun n c => n * 10 + (c.toNat - 48)) 0

/-- Python `float(s)` for strings drawn from the class `[0-9.]+`: defined
when there is at least one digit and at most one dot.  The result is the
exact decimal value, represented as a pair `(n, k)` standing for
`n / 10 ^ k` (so comparisons against a threshold stay exact integer
arithmetic). -/
def pyFloat (s : List Char) : Option (Nat × Nat) :=
  if s.any Char.isDigit && s.all (fun c => Char.isDigit c || c = '.') then
    match splitOnChar '.' s with
    | [a] => some (digitsToNat a, 0)
    | [a, b] => some (digitsToNat a * 10 ^ b.length + digitsToNat b, b.length)
    | _ => none
  else none

/-! ### A backtracking regex matcher (Python `re` semantics)

The syntax tree covers exactly the constructs used by the source's patterns:
character predicates, concatenation, alternation (preferring the left
alternative), greedy and lazy repetition, numbered capture groups,
lookahead `(?=...)`, the word boundary `\b` and the end anchor `$`
(no-MULTILINE semantics: end of text, or just before a final newline). -/

inductive RE where
  | eps
  | ch (p : Char → Bool)
  | cat (a b : RE)
  | alt (a b : RE)
  | star (greedy : Bool) (a : RE)
  | group (i : Nat) (a : RE)
  | look (a : RE)
  | wb
  | eos

/-- Captured groups, most recent first (Python keeps the last repetition). -/
abbrev Caps := List (Nat × List Char)

/-- Python `\w` (ASCII). -/
def isWordChar (c : Char) : Bool := c.isAlphanum || c = '_'

/-- Backtracking matcher in continuation-passing style.  `prev` is the
character just before the current position (for `\b`), `s` the remaining
input.  A successful overall match yields its captures together with the
length of the input remaining after it.  `fuel` bounds the recursion depth;
it is chosen large enough at every call site (`bigFuel`). -/
def mtch : Nat → RE → Option Char → List Char → Caps →
    (Option Char → List Char → Caps → Option (Caps × Nat)) → Option (Caps × Nat)
  | 0, _, _, _, _, _ => none
  | Nat.succ fuel, r, prev, s, caps, k =>
    match r with
    | .eps => k prev s caps
    | .ch p =>
      match s with
      | [] => none
      | c :: rest => if p c then k (some c) rest caps else none
    | .cat a b => mtch fuel a prev s caps (fun p2 s2 c2 => mtch fuel b p2 s2 c2 k)
    | .alt a b =>
      match mtch fuel a prev s caps k with
      | some res => some res
      | none => mtch fuel b prev s caps k
    | .star g a =>
      if g then
        match mtch fuel a prev s caps (fun p2 s2 c2 =>
            if s2.length < s.length then mtch fuel (.star true a) p2 s2 c2 k
            else none) with
        | some res => some res
        | none => k prev s caps
      else
        match k prev s caps with
        | some res => some res
        | none =>
          mtch fuel a prev s caps (fun p2 s2 c2 =>
            if s2.length < s.length then mtch fuel (.star false a) p2 s2 c2 k
            else none)
    | .group i a =>
      mtch fuel a prev s caps (fun p2 s2 c2 =>
        k p2 s2 ((i, s.take (s.length - s2.length)) :: c2))
    | .look a =>
      match mtch fuel a prev s caps (fun _ _ c2 => some (c2, s.length)) with
      | some (c2, _) => k prev s c2
      | none => none
    | .wb =>
      let pw := match prev with | some c => isWordChar c | none => false
      let nw := match s with | c :: _ => isWordChar c | [] => false
      if pw != nw then k prev s caps else none
    | .eos =>
      match s with
      | [] => k prev s caps
      | ['\n'] => k prev s caps
      | _ => none

/-- Try to match `r` anchored at the start of `s`. -/
def matchAt (fuel : Nat) (r : RE) (prev : Option Char) (s : List Char) :
    Option (Caps × Nat) :=
  mtch fuel r prev s [] (fun _ s2 c2 => some (c2, s2.length))

/-- Scan forward for the leftmost match; returns its start index, the length
of the input remaining after it, and its captures. -/
def searchFrom (fuel : Nat) (r : RE) : Option Char → List Char → Nat →
    Option (Nat × Nat × Caps)
  | prev, s, pos =>
    match matchAt fuel r prev s with
    | some (caps, rem) => some (pos, rem, caps)
    | none =>
      match s with
      | [] => none
      | c :: rest => searchFrom fuel r (some c) rest (pos + 1)

/-- Recursion-depth budget for a text. -/
def bigFuel (s : List Char) : Nat := 8 * s.length + 800

/-- Result of one regex match: start index, end index, captures. -/
structure MatchRes where
  start : Nat
  stop : Nat
  caps : Caps
deriving Repr

/-- Python `re.search(r, text)`. -/
def pySearch (r : RE) (text : List Char) : Option MatchRes :=
  match searchFrom (bigFuel text) r none text 0 with
  | some (st, rem, caps) => some ⟨st, text.length - rem, caps⟩
  | none => none

/-- `m.group(i)` (`none` when the group did not participate). -/
def grp (m : MatchRes) (i : Nat) : Option (List Char) := m.caps.lookup i

/-- `m.group(0)` as a slice of the searched text. -/
def grp0 (text : List Char) (m : MatchRes) : List Char :=
  pySlice text m.start m.stop

/-- Python `re.finditer(r, text)`: non-overlapping matches, left to right. -/
def pyFinditer (r : RE) (text : List Char) : List MatchRes :=
  let n := text.length
  let fuel := bigFuel text
  let rec go : Nat → Nat → List MatchRes := fun itf start =>
    match itf with
    | 0 => []
    | Nat.succ itf =>
      if start > n then []
      else
        let prev := if start = 0 then none else text[start - 1]?
        match searchFrom fuel r prev (text.drop start) start with
        | none => []
        | some (st, rem, caps) =>
          let stop := n - rem
          ⟨st, stop, caps⟩ :: go itf (if st < stop then stop else st + 1)
  go (n + 1) 0

/-- Python `re.match(r, s)`: anchored at the start. -/
def pyMatch (r : RE) (s : List Char) : Option (Caps × Nat) :=
  matchAt (bigFuel s) r none s

/-! ### Pattern-building helpers (transcription vocabulary) -/

def lit1 (c : Char) : RE := .ch (fun x => x = c)

def lit1CI (c : Char) : RE := .ch (fun x => x.toLower = c.toLower)

/-- A literal string, case-sensitive. -/
def lit (s : String) : RE := s.data.foldr (fun c r => .cat (lit1 c) r) .eps

/-- A literal string under the IGNORECASE flag. -/
def litCI (s : String) : RE := s.data.foldr (fun c r => .cat (lit1CI c) r) .eps

def reOpt (g : Bool) (a : RE) : RE := if g then .alt a .eps else .alt .eps a

def rePlus (g : Bool) (a : RE) : RE := .cat a (.star g a)

/-- `.` without DOTALL: any character but a newline. -/
def dotNL : RE := .ch (fun c => c ≠ '\n')

/-- `.` under DOTALL: any character. -/
def dotAll : RE := .ch (fun _ => true)

/-- Lazy `.*?` (DOTALL chosen by the argument). -/
def lazyStar (dot : RE) : RE := .star false dot

def ws : RE := .ch pySpace
def wsStar : RE := .star true ws
def wsPlus : RE := rePlus true ws
def reDigit : RE := .ch Char.isDigit

def cats : List RE → RE
  | [] => .eps
  | [r] => r
  | r :: rs => .cat r (cats rs)

def alts : List RE → RE
  | [] => .eps
  | [r] => r
  | r :: rs => .alt r (alts rs)

/-- `{n}` repetition. -/
def repN : Nat → RE → RE
  | 0, _ => .eps
  | Nat.succ n, a => .cat a (repN n a)

end PdfExtractor

namespace PdfExtractor

/-! ### Document classifier — `is_ihc_report` (lines 888-896) -/

/-- `ihc_keywords` (line 890). -/
def ihc_keywords : List (List Char) :=
  ["FOLR1".data, "FolR1".data, "IHC test".data, "immunohistochemistry".data,
   "Ventana".data, "RxDx Assay".data]

/-- `genetic_keywords` (line 891). -/
def genetic_keywords : List (List Char) :=
  ["NGS".data, "sequencing".data, "genetic variant".data, "mutation".data,
   "TMB".data, "tumor mutational burden".data]

/-- Number of keywords of the set occurring in the text
(`sum(1 for keyword in kws if keyword.lower() in text.lower())`). -/
def keywordHits (kws : List (List Char)) (text : List Char) : Nat :=
  kws.countP (fun k => containsSeq (pyLower k) (pyLower text))

/-- `is_ihc_report` (lines 888-896): IHC iff the IHC keyword hit count
strictly exceeds the genetic one. -/
def is_ihc_report (text : List Char) : Bool :=
  decide (keywordHits genetic_keywords text < keywordHits ihc_keywords text)

/-! ### Redaction detector — `is_redacted_pdf` (lines 562-589) -/

/-- `obvious_redaction_patterns` (lines 569-573); the escaped regexes are
plain literals, searched case-insensitively. -/
def obvious_redaction_patterns : List (List Char) :=
  ["REDACTED".data, "[PROTECTED]".data, "[CONFIDENTIAL]".data]

/-- `redaction_matches` accumulation (lines 575-578): one per pattern that
occurs somewhere in the text. -/
def redactionMatches (text : List Char) : Nat :=
  obvious_redaction_patterns.countP (fun p => containsCI p text)

/-- The placeholder test `re.match(r'^0{3}-1{3}$', word)` (line 583). -/
def re000111 : RE := cats [repN 3 (lit1 '0'), lit1 '-', repN 3 (lit1 '1'), .eos]

/-- `is_redacted_pdf` (lines 562-589).  The float test
`placeholder_count / len(words) > 0.5` is rendered exactly as
`2 * placeholder_count > len(words)` (equivalent for the word counts that can
occur here). -/
def is_redacted_pdf (text : List Char) : Bool :=
  if (pyStrip text).length < 100 then false
  else
    let rm := redactionMatches text
    let words := pySplit text
    if decide (50 < words.length) &&
        decide (words.length < 2 * words.countP (fun w => (pyMatch re000111 w).isSome)) then
      true
    else
      decide (2 ≤ rm) && decide (words.length < 200)

/-! ### Interpretation engine — `determine_folr1_interpretation`
(lines 488-519) -/

/-- The capture `([0-9.]+)` shared by the three FOLR1 percentage patterns. -/
def folr1PercentGroup : RE :=
  .group 1 (rePlus true (.ch (fun c => c.isDigit || c = '.')))

/-- `r'FOLR1.*?([0-9.]+)%'` with `re.IGNORECASE` and without DOTALL, so `.`
does not cross newlines. -/
def folr1Pat1 : RE := cats [litCI "FOLR1", lazyStar dotNL, folr1PercentGroup, lit1 '%']

/-- `r'FolR1.*?([0-9.]+)%'` with IGNORECASE. -/
def folr1Pat2 : RE := cats [litCI "FolR1", lazyStar dotNL, folr1PercentGroup, lit1 '%']

/-- `r'FOLR1.*?expression.*?([0-9.]+)%'` with IGNORECASE. -/
def folr1Pat3 : RE :=
  cats [litCI "FOLR1", lazyStar dotNL, litCI "expression", lazyStar dotNL,
    folr1PercentGroup, lit1 '%']

/-- `folr1_patterns` (lines 495-499). -/
def folr1_patterns : List RE := [folr1Pat1, folr1Pat2, folr1Pat3]

/-- The percentage loop of `determine_folr1_interpretation` (lines 501-511):
first pattern whose match yields a `float()`-parsable group decides; a
`ValueError` (unparsable group) falls through to the next pattern. -/
def folr1PercentLoop (text : List Char) : List RE → Option (List Char)
  | [] => none
  | p :: ps =>
    match pySearch p text with
    | some m =>
      match grp m 1 with
      | some g =>
        match pyFloat g with
        | some v =>
          -- `percentage >= 75.0` on the exact decimal `v.1 / 10 ^ v.2`
          some (if 75 * 10 ^ v.2 ≤ v.1 then "positive".data else "negative".data)
        | none => folr1PercentLoop text ps
      | none => folr1PercentLoop text ps
    | none => folr1PercentLoop text ps

def folr1FromPercent (text : List Char) : Option (List Char) :=
  folr1PercentLoop text folr1_patterns

/-- `determine_folr1_interpretation` (lines 488-519). -/
def determine_folr1_interpretation (text : List Char) : List Char :=
  match folr1FromPercent text with
  | some r => r
  | none =>
    if (pySearch (cats [litCI "FOLR1", lazyStar dotNL, litCI "positive"]) text).isSome then
      "positive".data
    else if (pySearch (cats [litCI "FOLR1", lazyStar dotNL, litCI "negative"]) text).isSome then
      "negative".data
    else "N/A".data

/-! ### Field resolver — `extract_pattern` (lines 521-534) and
`extract_multiple_patterns` (lines 741-747) -/

/-- A recognition rule as handed to `extract_pattern`: the compiled regex, or
`malformed` for a pattern string whose compilation raises `re.error`. -/
inductive Rule where
  | valid (p : RE)
  | malformed

/-- `extract_pattern` (lines 521-534).  The default is an `Option` because
`extract_multiple_patterns` passes Python `None`.  The `try/except` catches
every exception — a malformed pattern as well as `match.group(1)` being
`None` or missing — and yields the default.  Cleanup order follows the
source: `strip()`, collapse `\s+` to one space, then replace `\n` and `\r`
by spaces; an empty cleaned capture also yields the default. -/
def extract_pattern (text : List Char) (rule : Rule) (dflt : Option (List Char)) :
    Option (List Char) :=
  match rule with
  | .malformed => dflt
  | .valid p =>
    match pySearch p text with
    | none => dflt
    | some m =>
      match grp m 1 with
      | none => dflt
      | some g =>
        let r := replaceChar '\r' ' ' (replaceChar '\n' ' ' (collapseWs (pyStrip g)))
        if r.isEmpty then dflt else some r

/-- `extract_multiple_patterns` (lines 741-747): first rule whose
`extract_pattern` result is truthy and different from the string `N/A`
wins; otherwise the default. -/
def extract_multiple_patterns (text : List Char) (patterns : List Rule)
    (dflt : List Char) : List Char :=
  match patterns with
  | [] => dflt
  | r :: rs =>
    match extract_pattern text r none with
    | some res =>
      if res = "N/A".data then extract_multiple_patterns text rs dflt else res
    | none => extract_multiple_patterns text rs dflt

end PdfExtractor

namespace PdfExtractor

/-! ### Variant records and shared pattern pieces -/

/-- The default / sentinel string `'N/A'`. -/
def na : List Char := "N/A".data

/-- A variant dict as built throughout the source (all-string fields, keys
in source order). -/
structure Variant where
  gene : List Char
  nucleic_acid : List Char
  transcript : List Char
  cdna_change : List Char
  aa_change : List Char
  location : List Char
  variant_type : List Char
  significance : List Char
  allele_fraction : List Char
  copy_number : List Char
  build : List Char
  chromosome : List Char
  dbsnp_id : List Char
  cosmic_id : List Char
  depth : List Char
  genotype : List Char
  zygosity : List Char
deriving Repr, DecidableEq

/-- The repeated all-default variant dict (`'nucleic_acid': 'DNA'`, all other
optional fields `'N/A'`). -/
def Variant.base (g : List Char) : Variant :=
  { gene := g, nucleic_acid := "DNA".data, transcript := na, cdna_change := na,
    aa_change := na, location := na, variant_type := na, significance := na,
    allele_fraction := na, copy_number := na, build := na, chromosome := na,
    dbsnp_id := na, cosmic_id := na, depth := na, genotype := na, zygosity := na }

def vusStr : List Char := "Variants of Unknown Significance(VUS)".data

/- Character classes of the source's patterns.  In patterns compiled with
`re.IGNORECASE`, `[A-Z]`, `[a-z]` and `[A-Za-z]` all match any letter; in
flagless patterns they are case-sensitive. -/
def chAlnum : RE := .ch Char.isAlphanum
def clsAlpha : RE := .ch Char.isAlpha
def clsUpper : RE := .ch Char.isUpper
/-- `[A-Za-z0-9>_delins*]` and `[A-Za-z0-9>_*]` (the named letters are
already inside `A-Za-z`). -/
def clsChangeStar : RE := .ch (fun c => c.isAlphanum || c = '>' || c = '_' || c = '*')
/-- `[A-Za-z0-9>_del]`. -/
def clsChangeDel : RE := .ch (fun c => c.isAlphanum || c = '>' || c = '_')
/-- `[A-Za-z*]`, `[A-Za-z*XfsPfs]`, `[A-Za-z*X]`. -/
def clsAlphaStar : RE := .ch (fun c => c.isAlpha || c = '*')
/-- `[A-Z*XfsPfs]` without IGNORECASE: uppercase, `*`, `f`, `s`. -/
def clsUpperStarFs : RE := .ch (fun c => c.isUpper || c = '*' || c = 'f' || c = 's')
/-- `[cp]` without IGNORECASE. -/
def clsCPcs : RE := .ch (fun c => c = 'c' || c = 'p')
/-- `[cp]` under IGNORECASE. -/
def clsCPci : RE := .ch (fun c => c.toLower = 'c' || c.toLower = 'p')
/-- `[:\s]*`. -/
def colonWsStar : RE := .star true (.ch (fun c => c = ':' || pySpace c))
/-- `[|\s]*`. -/
def pipeWsStar : RE := .star true (.ch (fun c => c = '|' || pySpace c))
/-- `x{1,2}`. -/
def rep1to2 (r : RE) : RE := cats [r, reOpt true r]
/-- `[^\n\r]`. -/
def notNLCR : RE := .ch (fun c => c ≠ '\n' && c ≠ '\r')

/-- `(NM_[0-9]+\.[0-9]+)`, flagless. -/
def reTranscriptCS : RE :=
  .group 1 (cats [lit "NM_", rePlus true reDigit, lit1 '.', rePlus true reDigit])
/-- `([cp]\.[A-Za-z0-9>_del]+)`, flagless. -/
def reCdnaDelCS : RE := .group 1 (cats [clsCPcs, lit1 '.', rePlus true clsChangeDel])
/-- `([cp]\.[A-Za-z0-9>_delins*]+)`, flagless. -/
def reCdnaInsCS : RE := .group 1 (cats [clsCPcs, lit1 '.', rePlus true clsChangeStar])
/-- `([A-Z][0-9]+[A-Z*XfsPfs]+[0-9]*)`, flagless. -/
def reAAfull : RE :=
  .group 1 (cats [clsUpper, rePlus true reDigit, rePlus true clsUpperStarFs, .star true reDigit])
/-- `([A-Z][0-9]+[A-Za-z*XfsPfs]+[0-9]*)`, flagless. -/
def reAAlineCS : RE :=
  .group 1 (cats [clsUpper, rePlus true reDigit, rePlus true clsAlphaStar, .star true reDigit])
/-- `([A-Z][0-9]+[A-Za-z*X]+)`, flagless. -/
def reAAX : RE := .group 1 (cats [clsUpper, rePlus true reDigit, rePlus true clsAlphaStar])
/-- `exon\s*(\d+)` with IGNORECASE. -/
def reExonCI : RE := cats [litCI "exon", wsStar, .group 1 (rePlus true reDigit)]
/-- `(\d{1,2}(?:\.\d+)?)%`. -/
def reAfSmall : RE :=
  cats [.group 1 (cats [rep1to2 reDigit, reOpt true (cats [lit1 '.', rePlus true reDigit])]),
    lit1 '%']
/-- `(\d+(?:\.\d+)?)%`. -/
def reAfAny : RE :=
  cats [.group 1 (cats [rePlus true reDigit, reOpt true (cats [lit1 '.', rePlus true reDigit])]),
    lit1 '%']
/-- `(\d+(?:\.\d+)?)%?`. -/
def reVafCell : RE :=
  cats [.group 1 (cats [rePlus true reDigit, reOpt true (cats [lit1 '.', rePlus true reDigit])]),
    reOpt true (lit1 '%')]
/-- `(\d{2,3})`. -/
def reCn23 : RE := .group 1 (cats [reDigit, reDigit, reOpt true reDigit])
/-- `copy\s*number[:\s]*(\d+)` with IGNORECASE. -/
def reCopyNumberCI : RE :=
  cats [litCI "copy", wsStar, litCI "number", colonWsStar, .group 1 (rePlus true reDigit)]

/-- `common_genes` (24 entries, lines 1423/1503/1731/1852). -/
def common_genes : List String :=
  ["RB1", "RET", "NPM1", "BRCA1", "BRCA2", "MLH1", "MSH2", "MSH6", "PMS2",
   "EPCAM", "APC", "MUTYH", "TP53", "CHEK2", "PALB2", "ATM", "CDH1", "STK11",
   "PTEN", "CD27", "KRAS", "PIK3CA", "EGFR", "BRAF"]

/-- The 20-gene list of `find_mentioned_genes` (line 2014). -/
def mentioned_genes : List String :=
  ["RB1", "RET", "NPM1", "BRCA1", "BRCA2", "MLH1", "MSH2", "MSH6", "PMS2",
   "EPCAM", "APC", "MUTYH", "TP53", "CHEK2", "PALB2", "ATM", "CDH1", "STK11",
   "PTEN", "CD27"]

/-- `rf'\b{gene}\b'` with IGNORECASE. -/
def geneWordRe (g : String) : RE := cats [.wb, litCI g, .wb]

/-- `find_mentioned_genes` (lines 2012-2021). -/
def find_mentioned_genes (text : List Char) : List (List Char) :=
  (mentioned_genes.filter (fun g => (pySearch (geneWordRe g) text).isSome)).map String.data

/-- `extract_variant_details_from_context` (lines 1968-2010), as a pure
update of the variant record. -/
def extract_variant_details_from_context (v0 : Variant) (ctx : List Char) : Variant :=
  let v := v0
  let v := match pySearch reTranscriptCS ctx with
    | some m => { v with transcript := (grp m 1).getD v.transcript }
    | none => v
  let v := match pySearch reCdnaDelCS ctx with
    | some m => { v with cdna_change := (grp m 1).getD v.cdna_change }
    | none => v
  let v := match pySearch reAAfull ctx with
    | some m => { v with aa_change := (grp m 1).getD v.aa_change }
    | none => v
  let v := match pySearch reExonCI ctx with
    | some m => { v with location := "exon".data ++ (grp m 1).getD [] }
    | none => v
  let v := if containsCI "deletion".data ctx && containsCI "frameshift".data ctx then
      { v with variant_type := "Deletion-Frameshift".data }
    else if containsCI "substitution".data ctx && containsCI "missense".data ctx then
      { v with variant_type := "Substitution-Missense".data }
    else v
  let v := if containsCI "pathogenic".data ctx then
      { v with significance := "Pathogenic".data }
    else if containsCI "vus".data ctx || containsCI "unknown significance".data ctx then
      { v with significance := vusStr }
    else v
  let v := match pySearch reAfSmall ctx with
    | some m => { v with allele_fraction := (grp m 1).getD v.allele_fraction }
    | none => v
  match pySearch reCn23 ctx with
  | some m =>
    let g := (grp m 1).getD []
    if 10 < digitsToNat g then { v with copy_number := g } else v
  | none => v

end PdfExtractor

namespace PdfExtractor

/-! ### `parse_mutation_row` (lines 1873-1966) and
`extract_variant_from_line` (lines 1569-1629) -/

def partAt (parts : List (List Char)) (i : Nat) : List Char := (parts[i]?).getD []

/-- `^[A-Z][A-Z0-9-]+$`, flagless. -/
def reGeneCandidate : RE :=
  cats [clsUpper, rePlus true (.ch (fun c => c.isUpper || c.isDigit || c = '-')), .eos]

/-- `[cp]\.[A-Za-z0-9>_del]+` as a flagless prefix test (`re.match`). -/
def reCdnaPrefixTest : RE := cats [clsCPcs, lit1 '.', rePlus true clsChangeDel]

/-- `[A-Z][0-9]+[A-Z*XfsPfs]+` as a flagless prefix test. -/
def reAaPrefixTest : RE := cats [clsUpper, rePlus true reDigit, rePlus true clsUpperStarFs]

/-- `^\d+$`, flagless. -/
def reAllDigits : RE := cats [rePlus true reDigit, .eos]

/-- `parse_mutation_row` (lines 1873-1966); the `header_type` argument is
never used by the body and is omitted. -/
def parse_mutation_row (parts : List (List Char)) (full_line : List Char) : Variant :=
  let v := Variant.base na
  let p0 := pyStrip (partAt parts 0)
  let v := if 1 ≤ parts.length && !p0.isEmpty &&
      (pyMatch reGeneCandidate p0).isSome && p0.length ≤ 10 then
      { v with gene := p0 } else v
  let p1 := pyStrip (partAt parts 1)
  let v := if 2 ≤ parts.length && !p1.isEmpty then
      if (pyMatch reCdnaPrefixTest p1).isSome then { v with cdna_change := p1 }
      else if (pyMatch reAaPrefixTest p1).isSome then { v with aa_change := p1 }
      else if containsSeq "c.".data p1 || containsSeq "p.".data p1 then
        { v with cdna_change := p1 }
      else { v with aa_change := p1 }
    else v
  let p2 := pyStrip (partAt parts 2)
  let v := if 3 ≤ parts.length && !p2.isEmpty &&
      (containsSeq "exon".data (pyLower p2) || (pyMatch reAllDigits p2).isSome) then
      { v with location := p2 } else v
  let p3 := pyStrip (partAt parts 3)
  let v := if 4 ≤ parts.length && !p3.isEmpty then
      match pySearch reVafCell p3 with
      | some m => { v with allele_fraction := (grp m 1).getD v.allele_fraction }
      | none => v
    else v
  let p4 := pyStrip (partAt parts 4)
  let v := if 5 ≤ parts.length && !p4.isEmpty then
      if containsSeq "pathogen".data (pyLower p4) then { v with significance := "Pathogenic".data }
      else if containsSeq "vus".data (pyLower p4) || containsSeq "uncertain".data (pyLower p4) then
        { v with significance := vusStr }
      else if containsSeq "benign".data (pyLower p4) then { v with significance := "Benign".data }
      else { v with significance := p4 }
    else v
  let p5 := pyStrip (partAt parts 5)
  let v := if 6 ≤ parts.length && !p5.isEmpty && containsSeq "NM_".data p5 then
      { v with transcript := p5 } else v
  let p6 := pyStrip (partAt parts 6)
  let v := if 7 ≤ parts.length && !p6.isEmpty && p6 ≠ na then
      { v with variant_type := p6 } else v
  let v := match pySearch reTranscriptCS full_line with
    | some m => if v.transcript = na then { v with transcript := (grp m 1).getD na } else v
    | none => v
  match pySearch reCn23 full_line with
  | some m =>
    let g := (grp m 1).getD []
    if 10 < digitsToNat g && digitsToNat g < 200 then { v with copy_number := g } else v
  | none => v

/-- The gene alternation
`RB1|RET|NPM1|BRCA[12]|MLH1|MSH[26]|PMS2|EPCAM|APC|MUTYH|TP53|CHEK2|PALB2|ATM|CDH1|STK11|PTEN|CD27|KRAS|PIK3CA|EGFR|BRAF`
under IGNORECASE. -/
def geneAltBig : RE :=
  alts [litCI "RB1", litCI "RET", litCI "NPM1",
    cats [litCI "BRCA", .ch (fun c => c = '1' || c = '2')],
    litCI "MLH1",
    cats [litCI "MSH", .ch (fun c => c = '2' || c = '6')],
    litCI "PMS2", litCI "EPCAM", litCI "APC", litCI "MUTYH", litCI "TP53",
    litCI "CHEK2", litCI "PALB2", litCI "ATM", litCI "CDH1", litCI "STK11",
    litCI "PTEN", litCI "CD27", litCI "KRAS", litCI "PIK3CA", litCI "EGFR",
    litCI "BRAF"]

/-- `\b(genes...)\b` with IGNORECASE (line 1592). -/
def reGeneLineCI : RE := cats [.wb, .group 1 geneAltBig, .wb]

/-- `extract_variant_from_line` (lines 1569-1629). -/
def extract_variant_from_line (line : List Char) : Variant :=
  let v := Variant.base na
  let v := match pySearch reGeneLineCI line with
    | some m => { v with gene := (grp m 1).getD v.gene }
    | none => v
  let v := match pySearch reTranscriptCS line with
    | some m => { v with transcript := (grp m 1).getD v.transcript }
    | none => v
  let v := match pySearch reCdnaInsCS line with
    | some m => { v with cdna_change := (grp m 1).getD v.cdna_change }
    | none => v
  let v := match pySearch reAAlineCS line with
    | some m => { v with aa_change := (grp m 1).getD v.aa_change }
    | none => v
  let v := match pySearch reExonCI line with
    | some m => { v with location := "exon".data ++ (grp m 1).getD [] }
    | none => v
  let v := match pySearch reAfSmall line with
    | some m => { v with allele_fraction := (grp m 1).getD v.allele_fraction }
    | none => v
  if containsCI "pathogen".data line then { v with significance := "Pathogenic".data }
  else if containsCI "vus".data line || containsCI "uncertain".data line then
    { v with significance := vusStr }
  else if containsCI "benign".data line then { v with significance := "Benign".data }
  else v

/-! ### `enhanced_fallback_gene_extraction` (lines 1728-1799) -/

/-- `gene_patterns` of `enhanced_fallback_gene_extraction` (lines 1736-1742),
compiled with IGNORECASE (so `[A-Z]`, `[A-Za-z*]`, `[cp]` are
case-insensitive); each paired with its number of capture groups. -/
def efgePatterns (g : String) : List (RE × Nat) :=
  [ (cats [litCI g, wsPlus,
      .group 1 (cats [clsAlpha, rePlus true reDigit, rePlus true clsAlphaStar]), wsPlus,
      .group 2 (cats [clsCPci, lit1 '.', rePlus true clsChangeDel])], 2),
    (cats [litCI g, wsPlus,
      .group 1 (cats [clsCPci, lit1 '.', rePlus true clsChangeDel]), wsPlus,
      .group 2 (cats [clsAlpha, rePlus true reDigit, rePlus true clsAlphaStar])], 2),
    (cats [litCI g, lazyStar dotNL,
      .group 1 (cats [clsCPci, lit1 '.', rePlus true clsChangeDel])], 1),
    (cats [litCI g, lazyStar dotNL,
      .group 1 (cats [clsAlpha, rePlus true reDigit, rePlus true clsAlphaStar])], 1),
    (cats [litCI g, wsPlus,
      .group 1 (cats [litCI "NM_", rePlus true reDigit, lit1 '.', rePlus true reDigit])], 1) ]

/-- `[A-Z][0-9]+[A-Za-z*]+` as a flagless prefix test (line 1777/1786). -/
def reAaPrefixStar : RE := cats [clsUpper, rePlus true reDigit, rePlus true clsAlphaStar]

/-- Classification of `match.group(1)` (lines 1773-1780). -/
def efgeClassify1 (v : Variant) (g1 : List Char) : Variant :=
  if containsSeq "c.".data g1 || containsSeq "p.".data g1 then { v with cdna_change := g1 }
  else if (pyMatch reAaPrefixStar g1).isSome then { v with aa_change := g1 }
  else if containsSeq "NM_".data g1 then { v with transcript := g1 }
  else v

/-- Classification of `match.group(2)` (lines 1782-1787). -/
def efgeClassify2 (v : Variant) (g2 : List Char) : Variant :=
  if containsSeq "c.".data g2 || containsSeq "p.".data g2 then { v with cdna_change := g2 }
  else if (pyMatch reAaPrefixStar g2).isSome then { v with aa_change := g2 }
  else v

/-- Build the variant for one match (lines 1747-1790). -/
def efgeBuild (text : List Char) (g : String) (ng : Nat) (m : MatchRes) : Variant :=
  let ctx := pySlice text (m.start - 200) (m.stop + 200)
  let v := Variant.base g.data
  let v := if 1 ≤ ng then
      match grp m 1 with | some g1 => efgeClassify1 v g1 | none => v
    else v
  let v := if 2 ≤ ng then
      match grp m 2 with | some g2 => efgeClassify2 v g2 | none => v
    else v
  extract_variant_details_from_context v ctx

/-- The inner match loop: the first match whose variant carries some mutation
data is appended and the loop over matches breaks (lines 1746-1797). -/
def efgeFirstWithData (text : List Char) (g : String) (ng : Nat) :
    List MatchRes → Option Variant
  | [] => none
  | m :: ms =>
    let v := efgeBuild text g ng m
    if v.cdna_change ≠ na || v.aa_change ≠ na || v.transcript ≠ na then some v
    else efgeFirstWithData text g ng ms

/-- `enhanced_fallback_gene_extraction` (lines 1728-1799).  Note that the
source's `break` leaves only the match loop, so each of the five patterns of
a gene may contribute one variant. -/
def enhanced_fallback_gene_extraction (text : List Char) : List Variant :=
  (common_genes.foldl (fun acc g =>
    (efgePatterns g).foldl (fun acc2 pr =>
      match efgeFirstWithData text g pr.2 (pyFinditer pr.1 text) with
      | some v => acc2 ++ [v]
      | none => acc2) acc) []).take 5

end PdfExtractor

namespace PdfExtractor

/-! ### `parse_variant_table` (lines 1656-1726) -/

/-- `re.split(r'\s{2,}|\t|\|', line)`: scanning left to right, a separator is
a maximal whitespace run of length at least two, a single tab, or a single
pipe; empty pieces are kept.  The fuel is the line length plus one (every
step consumes at least one character). -/
def rowSplitAux : Nat → List Char → List Char → List (List Char)
  | 0, _, acc => [acc.reverse]
  | Nat.succ f, s, acc =>
    match s with
    | [] => [acc.reverse]
    | c :: rest =>
      if c = '|' then acc.reverse :: rowSplitAux f rest []
      else if pySpace c && (match rest with | c2 :: _ => pySpace c2 | [] => false) then
        acc.reverse :: rowSplitAux f (rest.dropWhile pySpace) []
      else if c = '\t' then acc.reverse :: rowSplitAux f rest []
      else rowSplitAux f rest (c :: acc)

def rowSplit (line : List Char) : List (List Char) := rowSplitAux (line.length + 1) line []

/-- `.*` inside the per-line header searches (IGNORECASE, no DOTALL). -/
def hdrDotStar : RE := .star true dotNL

/-- `header_patterns` (lines 1663-1677), searched with IGNORECASE per line. -/
def header_patterns : List RE :=
  [ cats [litCI "Gene", hdrDotStar, litCI "Alteration", hdrDotStar, litCI "Location",
      hdrDotStar, litCI "VAF", hdrDotStar, litCI "ClinVar", hdrDotStar,
      litCI "TranscriptID", hdrDotStar, litCI "Type", hdrDotStar, litCI "Pathway"],
    cats [litCI "Gene", hdrDotStar, litCI "Transcript", hdrDotStar, litCI "cDNA",
      hdrDotStar, litCI "Amino", hdrDotStar, litCI "Location", hdrDotStar, litCI "Type"],
    cats [litCI "Gene", hdrDotStar, litCI "Mutation", hdrDotStar, litCI "Exon",
      hdrDotStar, litCI "Frequency", hdrDotStar, litCI "Significance"],
    cats [litCI "Gene", hdrDotStar, litCI "Change", hdrDotStar, litCI "Position",
      hdrDotStar, litCI "AF", hdrDotStar, litCI "Classification"],
    cats [litCI "Symbol", hdrDotStar, litCI "Alteration", hdrDotStar, litCI "Exon",
      hdrDotStar, litCI "VAF", hdrDotStar, litCI "Interpretation"],
    cats [litCI "Gene", wsPlus, litCI "Alteration", wsPlus, litCI "Location", wsPlus,
      litCI "VAF"],
    cats [litCI "Gene", wsPlus, litCI "cDNA", wsPlus, litCI "Protein", wsPlus,
      litCI "Exon"],
    cats [litCI "Gene", wsPlus, lazyStar dotNL, wsPlus, litCI "Location", wsPlus,
      lazyStar dotNL, wsPlus, litCI "Type"],
    cats [litCI "Gene", wsPlus, lazyStar dotNL, wsPlus, litCI "Exon", wsPlus,
      lazyStar dotNL, wsPlus, lit1 '%'],
    cats [litCI "RB1", wsPlus, lazyStar dotNL, wsPlus, litCI "RET", wsPlus,
      lazyStar dotNL, wsPlus, litCI "NPM1"],
    cats [litCI "Gene", ws, lazyStar dotNL, litCI "Alteration", ws, lazyStar dotNL,
      litCI "Location"] ]

/-- The header scan (lines 1679-1691): index of the first line matched by any
header pattern (patterns tried in order per line). -/
def findHeaderAux : List (List Char) → Nat → Option Nat
  | [], _ => none
  | l :: ls, i =>
    if header_patterns.any (fun p => (pySearch p l).isSome) then some i
    else findHeaderAux ls (i + 1)

/-- `^[A-Z][a-z]+\s*:` as a flagless prefix test (line 1702; the trailing
`.*` of the source pattern never affects whether `re.match` succeeds). -/
def reSkipRow : RE := cats [clsUpper, rePlus true (.ch Char.isLower), wsStar, lit1 ':']

/-- One data-row iteration of the table parse (lines 1696-1719). -/
def processRow (acc : List Variant) (raw : List Char) : List Variant :=
  let line := pyStrip raw
  if line.isEmpty || line.length < 5 then acc
  else if (pyMatch reSkipRow line).isSome || containsSeq "page".data (pyLower line) then acc
  else
    let parts := rowSplit line
    let v1 : Option Variant :=
      if 3 ≤ parts.length then some (parse_mutation_row parts line) else none
    let v2 := match v1 with
      | some v => if v.gene = na then extract_variant_from_line line else v
      | none => extract_variant_from_line line
    if v2.gene ≠ na then acc ++ [v2] else acc

def splitLines (text : List Char) : List (List Char) := splitOnChar '\n' text

def joinLines (ls : List (List Char)) : List Char := (ls.intersperse ['\n']).flatten

/-- `parse_variant_table` (lines 1656-1726): find a header line, parse up to
the following 14 lines as data rows, and fall back to
`enhanced_fallback_gene_extraction` when nothing was produced. -/
def parse_variant_table (text : List Char) : List Variant :=
  let lines := splitLines text
  let variants :=
    match findHeaderAux lines 0 with
    | some idx => ((lines.drop (idx + 1)).take 14).foldl processRow []
    | none => []
  if variants.isEmpty then enhanced_fallback_gene_extraction text else variants

/-! ### `find_gene_dense_section` (lines 1850-1871) and
`extract_marker_details_section` (lines 1801-1848) -/

def geneCount (chunk : List Char) : Nat :=
  common_genes.countP (fun g => (pySearch (geneWordRe g) chunk).isSome)

/-- `find_gene_dense_section` (lines 1850-1871): overlapping 20-line chunks
every 10 lines; the first chunk with the maximal positive gene count wins
(Python `max` keeps the first maximum). -/
def find_gene_dense_section (text : List Char) : List Char :=
  let lines := splitLines text
  let chunks := ((List.range ((lines.length + 9) / 10)).map (fun k =>
      let chunk := joinLines ((lines.drop (10 * k)).take 20)
      (chunk, geneCount chunk))).filter (fun cn => 0 < cn.2)
  match chunks.foldl (fun best cn =>
      match best with
      | none => some cn
      | some b => if b.2 < cn.2 then some cn else best) none with
  | some b => b.1
  | none => []

/-- The lookahead
`(?=\n\s*[A-Z][a-z]+\s*:|\n\s*CONCLUSION|\n\s*SUMMARY|\n\s*APPENDIX|\n\s*Results|$)`
under IGNORECASE (both letter classes become any-letter). -/
def sectionLA : RE :=
  .look (alts [
    cats [lit1 '\n', wsStar, clsAlpha, rePlus true clsAlpha, wsStar, lit1 ':'],
    cats [lit1 '\n', wsStar, litCI "CONCLUSION"],
    cats [lit1 '\n', wsStar, litCI "SUMMARY"],
    cats [lit1 '\n', wsStar, litCI "APPENDIX"],
    cats [lit1 '\n', wsStar, litCI "Results"],
    .eos])

/-- The lookahead `(?=\n\s*[A-Z]|\n\s*$)` under IGNORECASE. -/
def sectionLA2 : RE :=
  .look (alts [
    cats [lit1 '\n', wsStar, clsAlpha],
    cats [lit1 '\n', wsStar, .eos]])

/-- The lookahead `(?=\n\s*[A-Z][a-z]+\s*:|\n\s*CONCLUSION|\n\s*SUMMARY|$)`
under IGNORECASE. -/
def sectionLA3 : RE :=
  .look (alts [
    cats [lit1 '\n', wsStar, clsAlpha, rePlus true clsAlpha, wsStar, lit1 ':'],
    cats [lit1 '\n', wsStar, litCI "CONCLUSION"],
    cats [lit1 '\n', wsStar, litCI "SUMMARY"],
    .eos])

/-- `.*?` under DOTALL. -/
def lazyAll : RE := .star false dotAll

/-- `section_patterns` (lines 1804-1825), IGNORECASE and DOTALL. -/
def section_patterns : List RE :=
  [ cats [litCI "marker", wsStar, litCI "details", lazyAll, sectionLA],
    cats [litCI "mutations", lazyAll, sectionLA],
    cats [litCI "genetic", wsStar, litCI "variants", lazyAll, sectionLA],
    cats [litCI "variant", wsStar, litCI "details", lazyAll, sectionLA],
    cats [litCI "genomic", wsStar, litCI "alterations", lazyAll, sectionLA],
    cats [litCI "detected", wsStar, litCI "variants", lazyAll, sectionLA],
    cats [litCI "somatic", wsStar, litCI "variants", lazyAll, sectionLA],
    cats [litCI "Gene", wsStar, litCI "Alteration", wsStar, litCI "Location", lazyAll,
      sectionLA],
    cats [litCI "Gene", wsStar, litCI "Transcript", wsStar, litCI "cDNA", lazyAll,
      sectionLA],
    cats [litCI "Gene", wsPlus, litCI "Alteration", wsPlus, litCI "Location", wsPlus,
      litCI "VAF", wsPlus, litCI "ClinVar", wsPlus, litCI "TranscriptID", wsPlus,
      litCI "Type", wsPlus, litCI "Pathway", lazyAll, sectionLA2],
    cats [litCI "Gene", wsPlus, litCI "cDNA", wsPlus, litCI "Protein", wsPlus,
      litCI "Exon", lazyAll, sectionLA2],
    cats [litCI "RB1", lazyAll, litCI "RET", lazyAll, litCI "NPM1", lazyAll,
      sectionLA3] ]

def sectionLoop (text : List Char) : List RE → Option (List Char)
  | [] => none
  | p :: ps =>
    match pySearch p text with
    | some m => some (grp0 text m)
    | none => sectionLoop text ps

/-- `extract_marker_details_section` (lines 1801-1848). -/
def extract_marker_details_section (text : List Char) : List Char :=
  match sectionLoop text section_patterns with
  | some s => s
  | none =>
    let g := find_gene_dense_section text
    if !g.isEmpty then g
    else
      let lines := splitLines text
      if 20 < lines.length then
        joinLines ((lines.drop (lines.length / 3)).take (2 * lines.length / 3 - lines.length / 3))
      else []

end PdfExtractor

namespace PdfExtractor

/-! ### `extract_variants_by_patterns` (lines 1420-1498) -/

/-- `'|'.join(common_genes)` under IGNORECASE. -/
def genes24Alt : RE := alts (common_genes.map litCI)

/-- `([A-Za-z][0-9]+[A-Za-z*XfsPfs]+[0-9]*)` (any flags: all-letter classes). -/
def reAAalnum : RE :=
  .group 1 (cats [clsAlpha, rePlus true reDigit, rePlus true clsAlphaStar, .star true reDigit])

/-- `([cp]\.[A-Za-z0-9>_*]+)` under IGNORECASE. -/
def grpCdnaStarCI (i : Nat) : RE := .group i (cats [clsCPci, lit1 '.', rePlus true clsChangeStar])

/-- `([A-Z][0-9]+[A-Za-z*]+)` under IGNORECASE. -/
def grpAaCI (i : Nat) : RE :=
  .group i (cats [clsAlpha, rePlus true reDigit, rePlus true clsAlphaStar])

/-- `mutation_patterns` (lines 1426-1434), IGNORECASE and DOTALL, each with
its group count. -/
def mutation_patterns : List (RE × Nat) :=
  [ (cats [.group 1 (litCI "RB1"), wsPlus, lazyAll, .group 2 (litCI "NM_000321.2"), wsPlus,
      lazyAll, grpCdnaStarCI 3, wsPlus, lazyAll, grpAaCI 4, wsPlus, lazyAll, litCI "exon",
      .group 5 (rePlus true reDigit)], 5),
    (cats [.group 1 (litCI "RET"), wsPlus, lazyAll, .group 2 (litCI "NM_020975.4"), wsPlus,
      lazyAll, grpCdnaStarCI 3, wsPlus, lazyAll, grpAaCI 4], 4),
    (cats [.group 1 (litCI "NPM1"), wsPlus, lazyAll, grpCdnaStarCI 2, wsPlus, lazyAll,
      grpAaCI 3], 3),
    (cats [.group 1 genes24Alt, wsPlus, lazyAll, grpCdnaStarCI 2, lazyAll, grpAaCI 3], 3),
    (cats [.group 1 genes24Alt, wsPlus, lazyAll, grpAaCI 2, lazyAll, grpCdnaStarCI 3], 3) ]

/-- Group classification of `extract_variants_by_patterns` (lines 1466-1476),
applied to groups 2.. in order. -/
def evbpClassify (v : Variant) (g : List Char) : Variant :=
  if containsSeq "NM_".data g then { v with transcript := g }
  else if startsWithSeq "c.".data g || startsWithSeq "p.".data g then { v with cdna_change := g }
  else if (pyMatch reAaPrefixStar g).isSome then { v with aa_change := g }
  else if (pyMatch reAllDigits g).isSome then { v with location := "exon".data ++ g }
  else v

def evbpBuild (text : List Char) (ng : Nat) (gname : List Char) (m : MatchRes) : Variant :=
  let v := Variant.base gname
  let v := (List.range (ng - 1)).foldl (fun v k =>
      match grp m (k + 2) with
      | some g => evbpClassify v g
      | none => v) v
  let ctx := pySlice text (m.start - 200) (m.stop + 200)
  let v := match pySearch reAfSmall ctx with
    | some m2 => { v with allele_fraction := (grp m2 1).getD v.allele_fraction }
    | none => v
  if containsCI "pathogenic".data ctx then { v with significance := "Pathogenic".data }
  else if containsCI "vus".data ctx || containsCI "uncertain".data ctx then
    { v with significance := vusStr }
  else v

/-- The match loop of one mutation pattern: duplicate genes are skipped, and
after an append that reaches five variants the match loop breaks
(lines 1437-1496). -/
def evbpInner (text : List Char) (ng : Nat) : List MatchRes → List Variant → List Variant
  | [], acc => acc
  | m :: ms, acc =>
    match grp m 1 with
    | none => evbpInner text ng ms acc
    | some gname =>
      if acc.any (fun v => v.gene = gname) then evbpInner text ng ms acc
      else
        let acc2 := acc ++ [evbpBuild text ng gname m]
        if 5 ≤ acc2.length then acc2 else evbpInner text ng ms acc2

/-- `extract_variants_by_patterns` (lines 1420-1498). -/
def extract_variants_by_patterns (text : List Char) : List Variant :=
  mutation_patterns.foldl (fun acc pr => evbpInner text pr.2 (pyFinditer pr.1 text) acc) []

/-! ### `extract_simple_gene_mentions` (lines 1500-1567) -/

/-- Variant from the first mention of a gene and its context
(lines 1510-1560). -/
def esgmBuild (text : List Char) (g : String) (m : MatchRes) : Variant :=
  let ctx := pySlice text (m.start - 100) (m.stop + 200)
  let v := Variant.base g.data
  let v := match pySearch reTranscriptCS ctx with
    | some m2 => { v with transcript := (grp m2 1).getD v.transcript }
    | none => v
  let v := match pySearch reCdnaInsCS ctx with
    | some m2 => { v with cdna_change := (grp m2 1).getD v.cdna_change }
    | none => v
  let v := match pySearch reAAX ctx with
    | some m2 => { v with aa_change := (grp m2 1).getD v.aa_change }
    | none => v
  let v := match pySearch reAfSmall ctx with
    | some m2 => { v with allele_fraction := (grp m2 1).getD v.allele_fraction }
    | none => v
  match pySearch reExonCI ctx with
  | some m2 => { v with location := "exon".data ++ (grp m2 1).getD [] }
  | none => v

/-- The gene loop (lines 1505-1565); `gene_mentions[0]` is the leftmost
match, and the loop breaks once five variants were collected. -/
def esgmLoop (text : List Char) : List String → List Variant → List Variant
  | [], acc => acc
  | g :: gs, acc =>
    match pySearch (geneWordRe g) text with
    | none => esgmLoop text gs acc
    | some m =>
      let acc2 := acc ++ [esgmBuild text g m]
      if 5 ≤ acc2.length then acc2 else esgmLoop text gs acc2

def extract_simple_gene_mentions (text : List Char) : List Variant :=
  esgmLoop text common_genes []

/-! ### The `gene_patterns` loop and `extract_genetic_variants`
(lines 1251-1418) -/

/-- The six-group enhanced pattern of lines 1296-1298 (for `RB1` and `RET`),
IGNORECASE. -/
def genePattern6 (g : String) : RE :=
  cats [.group 1 (litCI g), wsStar, pipeWsStar,
    reOpt true (.group 2 (cats [litCI "NM_", rePlus true reDigit, lit1 '.',
      rePlus true reDigit])),
    pipeWsStar,
    reOpt true (.group 3 (cats [clsCPci, lit1 '.', rePlus true clsChangeStar])),
    pipeWsStar,
    reOpt true (.group 4 (cats [clsAlpha, rePlus true reDigit, rePlus true clsAlphaStar,
      .star true reDigit])),
    pipeWsStar,
    reOpt true (cats [litCI "exon", wsStar, .group 5 (rePlus true reDigit)]),
    pipeWsStar,
    reOpt true (cats [.group 6 (rePlus true (.ch (fun c => c.isDigit || c = '.'))),
      lit1 '%'])]

/-- The four-group pattern of lines 1300-1302, IGNORECASE. -/
def genePattern4 (gene : RE) : RE :=
  cats [.group 1 gene, wsStar, pipeWsStar,
    reOpt true (.group 2 (cats [litCI "NM_", rePlus true reDigit, lit1 '.',
      rePlus true reDigit])),
    pipeWsStar,
    reOpt true (.group 3 (cats [clsCPci, lit1 '.', rePlus true clsChangeStar])),
    pipeWsStar,
    reOpt true (.group 4 (cats [clsAlpha, rePlus true reDigit, rePlus true clsAlphaStar,
      .star true reDigit]))]

/-- The gene alternation of line 1302 (no RB1/RET/NPM1), IGNORECASE. -/
def geneAltOther : RE :=
  alts [cats [litCI "BRCA", .ch (fun c => c = '1' || c = '2')],
    litCI "MLH1",
    cats [litCI "MSH", .ch (fun c => c = '2' || c = '6')],
    litCI "PMS2", litCI "EPCAM", litCI "APC", litCI "MUTYH", litCI "TP53",
    litCI "CHEK2", litCI "PALB2", litCI "ATM", litCI "CDH1", litCI "STK11",
    litCI "PTEN", litCI "CD27", litCI "KRAS", litCI "PIK3CA", litCI "EGFR",
    litCI "BRAF"]

/-- `gene_patterns` (lines 1294-1303). -/
def gene_patterns : List RE :=
  [genePattern6 "RB1", genePattern6 "RET", genePattern4 (litCI "NPM1"),
   genePattern4 geneAltOther]

/-- Variant construction for one `gene_patterns` match (lines 1313-1392):
groups 2-4 when present, otherwise fallback searches on
`text[match.start():match.end()+200]` (flagless), then context searches on
`text[match.start()-300:match.end()+300]`. -/
def gpBuild (text : List Char) (gname : List Char) (m : MatchRes) : Variant :=
  let seg := pySlice text m.start (m.stop + 200)
  let ctx := pySlice text (m.start - 300) (m.stop + 300)
  { Variant.base gname with
    transcript :=
      (match grp m 2 with
       | some g => some g
       | none => (pySearch reTranscriptCS seg).bind (fun m2 => grp m2 1)).getD na,
    cdna_change :=
      (match grp m 3 with
       | some g => some g
       | none => (pySearch reCdnaDelCS seg).bind (fun m2 => grp m2 1)).getD na,
    aa_change :=
      (match grp m 4 with
       | some g => some g
       | none => (pySearch reAAalnum seg).bind (fun m2 => grp m2 1)).getD na,
    location :=
      ((pySearch reExonCI ctx).map (fun m2 => "exon".data ++ (grp m2 1).getD [])).getD na,
    significance :=
      if containsCI "pathogenic".data ctx then "Pathogenic".data
      else if containsCI "vus".data ctx || containsCI "unknown significance".data ctx then
        vusStr
      else if containsCI "benign".data ctx then "Benign".data
      else na,
    variant_type :=
      if containsCI "deletion".data ctx && containsCI "frameshift".data ctx then
        "Deletion-Frameshift".data
      else if containsCI "substitution".data ctx && containsCI "missense".data ctx then
        "Substitution-Missense".data
      else if containsCI "insertion".data ctx then "Insertion".data
      else if containsCI "deletion".data ctx then "Deletion".data
      else na,
    allele_fraction := ((pySearch reAfAny ctx).bind (fun m2 => grp m2 1)).getD na,
    copy_number := ((pySearch reCopyNumberCI ctx).bind (fun m2 => grp m2 1)).getD na }

/-- The dedup guard used by the later strategies: append only when the gene
is not yet represented. -/
def addIfNewGene (acc : List Variant) (v : Variant) : List Variant :=
  if acc.any (fun w => w.gene = v.gene) then acc else acc ++ [v]

/-- One iteration of the `gene_patterns` match loop (lines 1307-1392): a
match whose gene is already represented is skipped (`continue`), otherwise
its variant is appended. -/
def gpStep (text : List Char) (acc2 : List Variant) (m : MatchRes) : List Variant :=
  match grp m 1 with
  | none => acc2
  | some gname =>
    if acc2.any (fun v => v.gene = gname) then acc2
    else acc2 ++ [gpBuild text gname m]

/-- The unconditional `gene_patterns` loop (lines 1305-1392). -/
def genePatternLoop (text : List Char) (acc0 : List Variant) : List Variant :=
  gene_patterns.foldl (fun acc p => (pyFinditer p text).foldl (gpStep text) acc) acc0

/-- Approach 1 of `extract_genetic_variants` (lines 1259-1266). -/
def egvStage1 (text : List Char) : List Variant :=
  let sec := extract_marker_details_section text
  if !sec.isEmpty then
    let tv := parse_variant_table sec
    if !tv.isEmpty then tv else []
  else []

/-- Approach 2 (lines 1268-1275): full-text table parsing, run only while
fewer than three variants were found, appending only new genes. -/
def egvAfter2 (text : List Char) : List Variant :=
  if (egvStage1 text).length < 3 then
    (parse_variant_table text).foldl addIfNewGene (egvStage1 text)
  else egvStage1 text

/-- Approach 3 (lines 1277-1283): pattern-based extraction under the same
guard and dedup. -/
def egvAfter3 (text : List Char) : List Variant :=
  if (egvAfter2 text).length < 3 then
    (extract_variants_by_patterns text).foldl addIfNewGene (egvAfter2 text)
  else egvAfter2 text

/-- Approach 4 (lines 1285-1291): simple gene mentions under the same guard
and dedup. -/
def egvAfter4 (text : List Char) : List Variant :=
  if (egvAfter3 text).length < 3 then
    (extract_simple_gene_mentions text).foldl addIfNewGene (egvAfter3 text)
  else egvAfter3 text

/-- After the unconditional `gene_patterns` loop (lines 1305-1392). -/
def egvAfter5 (text : List Char) : List Variant := genePatternLoop text (egvAfter4 text)

/-- `extract_genetic_variants` before the final cap (lines 1251-1416): the
bare-mention fallback fires only when everything else produced nothing. -/
def egvBeforeCap (text : List Char) : List Variant :=
  if (egvAfter5 text).isEmpty then ((find_mentioned_genes text).take 3).map Variant.base
  else egvAfter5 text

/-- `extract_genetic_variants` (lines 1251-1418): `return variants[:5]`. -/
def extract_genetic_variants (text : List Char) : List Variant :=
  (egvBeforeCap text).take 5

end PdfExtractor

namespace PdfExtractor

/-! ### `extract_pdl1_results` (lines 1631-1654) -/

/-- `([<>]?\s*[0-9]+)`. -/
def grpPdl1Pct : RE :=
  .group 1 (cats [reOpt true (.ch (fun c => c = '<' || c = '>')), wsStar,
    rePlus true reDigit])

/-- `pdl1_patterns` (lines 1633-1637), IGNORECASE and no DOTALL. -/
def pdl1_patterns : List RE :=
  [ cats [litCI "PD", reOpt true (lit1CI 'L'), lit1 '1', lazyStar dotNL,
      .group 1 (rePlus true reDigit), lit1 '%', lazyStar dotNL,
      .group 2 (alts [litCI "positive", litCI "negative", litCI "tumor proportion score"])],
    cats [litCI "PD-L1", lazyStar dotNL, grpPdl1Pct, lit1 '%'],
    cats [litCI "22C3", lazyStar dotNL, grpPdl1Pct, lit1 '%', lazyStar dotNL,
      .group 2 (alts [litCI "positive", litCI "negative"])] ]

/-- `re.findall(r'\d+', s)[0]`, defined on the strings reaching it (they
always contain a digit). -/
def firstDigitRun (s : List Char) : List Char :=
  match pySearch (.group 1 (rePlus true reDigit)) s with
  | some m => (grp m 1).getD []
  | none => []

/-- `extract_pdl1_results` (lines 1631-1654); `none` is Python `None`. -/
def extract_pdl1_results (text : List Char) : Option (List Char × List Char) :=
  pdl1Loop pdl1_patterns
where
  pdl1Loop : List RE → Option (List Char × List Char)
    | [] => none
    | p :: ps =>
      match pySearch p text with
      | some m =>
        let pct := pyStrip ((grp m 1).getD [])
        let base := pct ++ "% Tumor proportion score".data
        if pct.contains '<' || digitsToNat (firstDigitRun pct) < 1 then
          some ("PDL1 IHC (22C3)".data, base ++ " (Negative)".data)
        else
          some ("PDL1 IHC (22C3)".data, base ++ " (Positive)".data)
      | none => pdl1Loop ps

/-! ### `extract_genetic_variants_accurate` (lines 2107-2192) -/

def egvaRb1Patterns : List RE :=
  [ cats [litCI "RB1", lazyAll, litCI "NM_000321.2", lazyAll, litCI "c.13del", lazyAll,
      litCI "T5PfsX60", lazyAll, litCI "exon1", lazyAll, litCI "90"],
    cats [litCI "RB1", lazyAll, litCI "c.13del", lazyAll, litCI "T5PfsX60"],
    cats [litCI "RB1", lazyAll, litCI "T5PfsX60", lazyAll, litCI "90"],
    cats [litCI "RB1", lazyAll, litCI "deletion", lazyAll, litCI "frameshift", lazyAll,
      litCI "90"] ]

def egvaRetPatterns : List RE :=
  [ cats [litCI "RET", lazyAll, litCI "NM_020975.4", lazyAll, litCI "c.2753T>C", lazyAll,
      litCI "M918T", lazyAll, litCI "exon16", lazyAll, litCI "34"],
    cats [litCI "RET", lazyAll, litCI "c.2753T>C", lazyAll, litCI "M918T"],
    cats [litCI "RET", lazyAll, litCI "M918T", lazyAll, litCI "pathogenic", lazyAll,
      litCI "34"],
    cats [litCI "RET", lazyAll, litCI "substitution", lazyAll, litCI "missense", lazyAll,
      litCI "pathogenic"] ]

def egvaNpm1Patterns : List RE :=
  [ cats [litCI "NPM1", lazyAll, litCI "A190V", lazyAll, litCI "VUS"],
    cats [litCI "NPM1", lazyAll, litCI "A190V", lazyAll, litCI "unknown", lazyAll,
      litCI "significance"],
    cats [litCI "NPM1", lazyAll, litCI "A190V"] ]

def rb1Fixed : Variant :=
  { Variant.base "RB1".data with
    transcript := "NM_000321.2".data,
    cdna_change := "c.13del".data, aa_change := "T5PfsX60".data,
    location := "exon1".data, variant_type := "Deletion-Frameshift".data,
    allele_fraction := "90".data }

def retFixed : Variant :=
  { Variant.base "RET".data with
    transcript := "NM_020975.4".data,
    cdna_change := "c.2753T>C".data, aa_change := "M918T".data,
    location := "exon16".data, variant_type := "Substitution-Missense".data,
    significance := "Pathogenic".data, allele_fraction := "34".data }

def npm1Fixed : Variant :=
  { Variant.base "NPM1".data with aa_change := "A190V".data, significance := vusStr }

/-- `extract_genetic_variants_accurate` (lines 2107-2192): hardcoded RB1 /
RET / NPM1 variants when their signature patterns occur, otherwise the
general extractor. -/
def extract_genetic_variants_accurate (text : List Char) : List Variant :=
  let vs :=
    (if egvaRb1Patterns.any (fun p => (pySearch p text).isSome) then [rb1Fixed] else []) ++
    (if egvaRetPatterns.any (fun p => (pySearch p text).isSome) then [retFixed] else []) ++
    (if egvaNpm1Patterns.any (fun p => (pySearch p text).isSome) then [npm1Fixed] else [])
  if vs.isEmpty then extract_genetic_variants text else vs

/-! ### The accurate report-level field extractors (lines 2194-2372) -/

/-- First pattern whose search succeeds, yielding its group 1 (group 1 is a
mandatory part of every pattern passed here). -/
def searchGroup1Loop (text : List Char) : List RE → Option (List Char)
  | [] => none
  | p :: ps =>
    match pySearch p text with
    | some m => grp m 1
    | none => searchGroup1Loop text ps

def grpDigits (i : Nat) : RE := .group i (rePlus true reDigit)

/-- `extract_tumor_fraction_accurate` (lines 2194-2208), IGNORECASE. -/
def extract_tumor_fraction_accurate (text : List Char) : List Char :=
  (searchGroup1Loop text
    [ cats [litCI "tumor", wsPlus, litCI "fraction", colonWsStar, grpDigits 1,
        reOpt true (lit1 '%')],
      cats [litCI "tumor", wsPlus, litCI "content", colonWsStar, grpDigits 1,
        reOpt true (lit1 '%')],
      cats [litCI "neoplastic", wsPlus, litCI "content", colonWsStar, grpDigits 1,
        reOpt true (lit1 '%')],
      cats [grpDigits 1, lit1 '%', wsPlus, litCI "tumor"],
      cats [litCI "tumor", wsPlus, litCI "nuclei", colonWsStar, grpDigits 1,
        reOpt true (lit1 '%')] ]).getD na

/-- `extract_msi_status_accurate` (lines 2210-2218), IGNORECASE. -/
def extract_msi_status_accurate (text : List Char) : List Char :=
  if (pySearch (alts [litCI "MS-Stable", litCI "MSS",
      cats [litCI "microsatellite", wsPlus, litCI "stable"]]) text).isSome then
    "MS-Stable".data
  else if (pySearch (alts [litCI "MSI-H", litCI "MS-High",
      cats [litCI "microsatellite", wsPlus, litCI "instability", .star true dotNL,
        litCI "high"]]) text).isSome then
    "MSI-H".data
  else if (pySearch (alts [litCI "MSI-L", litCI "MS-Low",
      cats [litCI "microsatellite", wsPlus, litCI "instability", .star true dotNL,
        litCI "low"]]) text).isSome then
    "MSI-L".data
  else na

/-- `([0-9]+\.?[0-9]*)`. -/
def grpTmb (i : Nat) : RE :=
  .group i (cats [rePlus true reDigit, reOpt true (lit1 '.'), .star true reDigit])

/-- `extract_tmb_accurate` (lines 2220-2233), IGNORECASE. -/
def extract_tmb_accurate (text : List Char) : List Char :=
  (searchGroup1Loop text
    [ cats [litCI "TMB", colonWsStar, grpTmb 1],
      cats [litCI "tumor", wsPlus, litCI "mutational", wsPlus, litCI "burden", colonWsStar,
        grpTmb 1],
      cats [grpTmb 1, wsPlus, litCI "mut/mb"],
      cats [grpTmb 1, wsPlus, litCI "mutation", reOpt true (lit1CI 's'), litCI "/mb"] ]).getD na

/-- `[A-Z0-9-]` under IGNORECASE. -/
def clsIdChar : RE := .ch (fun c => c.isAlpha || c.isDigit || c = '-')

/-- `([0-9]{3}-[0-9]{3})`. -/
def reId33 (i : Nat) : RE := .group i (cats [repN 3 reDigit, lit1 '-', repN 3 reDigit])

/-- `extract_accurate_subject_id` (lines 2235-2251), IGNORECASE; default
`'000-111'`. -/
def extract_accurate_subject_id (text : List Char) : List Char :=
  (searchGroup1Loop text
    [ cats [litCI "subject", wsPlus, litCI "id", colonWsStar,
        .group 1 (rePlus true clsIdChar)],
      cats [litCI "patient", wsPlus, litCI "id", colonWsStar,
        .group 1 (rePlus true clsIdChar)],
      cats [litCI "id", colonWsStar, reId33 1],
      reId33 1 ]).getD "000-111".data

/-- `([A-Z]+-[0-9]+)` under IGNORECASE. -/
def reTrialGrp : RE := .group 1 (cats [rePlus true clsAlpha, lit1 '-', rePlus true reDigit])

/-- `extract_accurate_trial_id` (lines 2253-2267); default `'LY-1234'`. -/
def extract_accurate_trial_id (text : List Char) : List Char :=
  (searchGroup1Loop text
    [ cats [litCI "trial", wsPlus, litCI "id", colonWsStar, reTrialGrp],
      cats [litCI "study", wsPlus, litCI "id", colonWsStar, reTrialGrp],
      cats [litCI "protocol", colonWsStar, reTrialGrp],
      .group 1 (cats [litCI "LY-", rePlus true reDigit]) ]).getD "LY-1234".data

/-- `extract_accurate_site_id` (lines 2269-2282); default `'000'`. -/
def extract_accurate_site_id (text : List Char) : List Char :=
  (searchGroup1Loop text
    [ cats [litCI "site", wsPlus, litCI "id", colonWsStar, grpDigits 1],
      cats [litCI "site", colonWsStar, grpDigits 1],
      cats [litCI "center", colonWsStar, grpDigits 1] ]).getD "000".data

/-- `([0-9]{1,2}[A-Za-z]{3}[0-9]{4})`. -/
def reDate1 (i : Nat) : RE :=
  .group i (cats [rep1to2 reDigit, repN 3 clsAlpha, repN 4 reDigit])

/-- `([0-9]{1,2}/[0-9]{1,2}/[0-9]{4})`. -/
def reDateSlash (i : Nat) : RE :=
  .group i (cats [rep1to2 reDigit, lit1 '/', rep1to2 reDigit, lit1 '/', repN 4 reDigit])

/-- `extract_accurate_report_date` (lines 2284-2298); default `'01Feb2021'`. -/
def extract_accurate_report_date (text : List Char) : List Char :=
  (searchGroup1Loop text
    [ cats [litCI "report", wsPlus, litCI "date", colonWsStar, reDate1 1],
      cats [litCI "date", colonWsStar, reDate1 1],
      reDate1 1,
      cats [litCI "report", wsPlus, litCI "date", colonWsStar, reDateSlash 1] ]).getD
    "01Feb2021".data

/-- `extract_accurate_collection_date` (lines 2300-2314); default
`'22Dec2020'`. -/
def extract_accurate_collection_date (text : List Char) : List Char :=
  (searchGroup1Loop text
    [ cats [litCI "collection", wsPlus, litCI "date", colonWsStar, reDate1 1],
      cats [litCI "sample", wsPlus, litCI "date", colonWsStar, reDate1 1],
      cats [litCI "specimen", wsPlus, litCI "date", colonWsStar, reDate1 1],
      reDate1 1 ]).getD "22Dec2020".data

/-- `extract_accurate_gender` (lines 2316-2327): the word searches for
female/male are IGNORECASE, the single-letter `\bF\b` / `\bM\b` ones are
flagless; default `'Female'`. -/
def extract_accurate_gender (text : List Char) : List Char :=
  if (pySearch (cats [.wb, litCI "female", .wb]) text).isSome then "Female".data
  else if (pySearch (cats [.wb, litCI "male", .wb]) text).isSome &&
      !(pySearch (cats [.wb, litCI "female", .wb]) text).isSome then "Male".data
  else if (pySearch (cats [.wb, lit "F", .wb]) text).isSome then "Female".data
  else if (pySearch (cats [.wb, lit "M", .wb]) text).isSome then "Male".data
  else "Female".data

end PdfExtractor

namespace PdfExtractor

/-! ### `extract_disease_pattern` (lines 2084-2105), `extract_accurate_disease`
(lines 2329-2350) and `extract_accurate_panel` (lines 2352-2372) -/

/-- `\b(.*?word)\b` under IGNORECASE (no DOTALL). -/
def diseaseRe (word : String) : RE :=
  cats [.wb, .group 1 (cats [lazyStar dotNL, litCI word]), .wb]

/-- `\b(word)\b` under IGNORECASE. -/
def diseaseReConst (word : String) : RE := cats [.wb, .group 1 (litCI word), .wb]

def disease_patterns : List RE :=
  [diseaseRe "carcinoma", diseaseRe "cancer", diseaseRe "tumor",
   diseaseRe "malignancy", diseaseRe "neoplasm", diseaseReConst "adenocarcinoma",
   diseaseReConst "sarcoma", diseaseReConst "melanoma", diseaseReConst "lymphoma",
   diseaseReConst "leukemia"]

/-- `extract_disease_pattern` (lines 2084-2105): first match whose stripped
group has length strictly between 3 and 50; shorter or longer results fall
through to the next pattern. -/
def extract_disease_pattern (text : List Char) : List Char :=
  diseaseLoop disease_patterns
where
  diseaseLoop : List RE → List Char
    | [] => na
    | p :: ps =>
      match pySearch p text with
      | some m =>
        let r := pyStrip ((grp m 1).getD [])
        if 3 < r.length && r.length < 50 then r else diseaseLoop ps
      | none => diseaseLoop ps

def diseaseAccPatterns : List RE :=
  [ cats [litCI "thyroid", lazyStar dotNL, litCI "medullary", lazyStar dotNL,
      litCI "carcinoma"],
    cats [litCI "medullary", lazyStar dotNL, litCI "thyroid", lazyStar dotNL,
      litCI "carcinoma"],
    litCI "MTC",
    cats [litCI "thyroid", lazyStar dotNL, litCI "carcinoma"],
    cats [litCI "medullary", lazyStar dotNL, litCI "carcinoma"] ]

/-- `extract_accurate_disease` (lines 2329-2350). -/
def extract_accurate_disease (text : List Char) : List Char :=
  if diseaseAccPatterns.any (fun p => (pySearch p text).isSome) then
    "Thyroid Gland Medullary Carcinoma".data
  else
    let d := extract_disease_pattern text
    if d ≠ na then d else "Thyroid Gland Medullary Carcinoma".data

/-- The `test[:\s]*([^\n]+)` tail of the panel loop. -/
def panelTestFallback (text : List Char) : List Char :=
  match pySearch (cats [litCI "test", colonWsStar, .group 1 (rePlus true dotNL)]) text with
  | some m =>
    let r := pyStrip ((grp m 1).getD [])
    if 2 < r.length && r.length < 50 then r else "Omniseq Insight".data
  | none => "Omniseq Insight".data

/-- `extract_accurate_panel` (lines 2352-2372).  The bare pattern
`'insight'` has no capture group, so a text matching it (without an earlier
`omniseq` match) makes `match.group(1)` raise an uncaught `IndexError`;
that exceptional outcome is `none`. -/
def extract_accurate_panel (text : List Char) : Option (List Char) :=
  if (pySearch (cats [litCI "omniseq", wsPlus, litCI "insight"]) text).isSome then
    some "Omniseq Insight".data
  else if (pySearch (litCI "omniseq") text).isSome then some "Omniseq Insight".data
  else if (pySearch (litCI "insight") text).isSome then none
  else
    match pySearch (cats [litCI "panel", colonWsStar, .group 1 (rePlus true dotNL)]) text with
    | some m =>
      let r := pyStrip ((grp m 1).getD [])
      if 2 < r.length && r.length < 50 then some r else some (panelTestFallback text)
    | none => some (panelTestFallback text)

/-! ### `extract_field_value` (lines 2023-2082) -/

def grpNotNLCR : RE := .group 1 (rePlus true notNLCR)

def grpNotNLCRPipe : RE :=
  .group 1 (rePlus true (.ch (fun c => c ≠ '\n' && c ≠ '\r' && c ≠ '|')))

def grpNotNLCRDash : RE :=
  .group 1 (rePlus true (.ch (fun c => c ≠ '\n' && c ≠ '\r' && c ≠ '-')))

/-- `field_name.replace(" ", "\\s*")` as a pattern (template 4). -/
def litCIGaps (f : String) : RE :=
  cats (f.data.map (fun c => if c = ' ' then wsStar else lit1CI c))

/-- The ten pattern templates of `extract_field_value` (lines 2027-2045),
compiled with IGNORECASE, MULTILINE and DOTALL.  Under IGNORECASE the
`.upper()` and `.lower()` variants (templates 8 and 9) are the same pattern
as the flexible template; the class `[A-Za-z0-9\s,-\.%]` contains the range
`,-.`. -/
def fieldTemplates (f : String) : List RE :=
  [ cats [litCI f, wsStar, lit1 ':', wsStar, grpNotNLCR],
    cats [litCI f, wsStar, lit1 ':', wsStar, grpNotNLCRPipe],
    cats [litCI f, wsPlus, grpNotNLCR],
    cats [litCIGaps f, wsStar, reOpt true (lit1 ':'), wsStar, grpNotNLCR],
    cats [litCI f, wsStar, lit1 '|', wsStar, grpNotNLCRPipe],
    cats [litCI f, wsStar, lit1 '-', wsStar, grpNotNLCRDash],
    cats [.wb, litCI f, .wb, .star false dotAll,
      .group 1 (cats [chAlnum, .star false notNLCR]), .look (alts [lit1 '\n', .eos])],
    cats [litCI f, wsStar, reOpt true (lit1 ':'), wsStar, grpNotNLCR],
    cats [litCI f, wsStar, reOpt true (lit1 ':'), wsStar, grpNotNLCR],
    cats [litCI f, .star true (.ch (fun c => !c.isAlphanum)),
      .group 1 (cats [chAlnum,
        rePlus true (.ch (fun c => c.isAlphanum || pySpace c || (',' ≤ c && c ≤ '.') ||
          c = '%'))])] ]

/-- Result cleanup of `extract_field_value` (lines 2051-2055). -/
def fieldClean (g : List Char) : List Char :=
  let r := collapseWs (pyStrip g)
  let r := pyStrip (removeChar '|' r)
  r.dropWhile (fun c => c = ':' || c = '-' || pySpace c)

/-- Result validation of `extract_field_value` (lines 2057-2063). -/
def fieldAccept (r : List Char) : Bool :=
  !r.isEmpty && r ≠ na && decide (2 < (pyStrip r).length) && r.any Char.isAlpha &&
    decide (r.length < 200)

def fieldMatchLoop : List MatchRes → Option (List Char)
  | [] => none
  | m :: rest =>
    match grp m 1 with
    | some g =>
      let r := fieldClean g
      if fieldAccept r then some r else fieldMatchLoop rest
    | none => fieldMatchLoop rest

def fieldPatternLoop (text : List Char) : List RE → Option (List Char)
  | [] => none
  | p :: ps =>
    match fieldMatchLoop (pyFinditer p text) with
    | some r => some r
    | none => fieldPatternLoop text ps

def fieldNamesLoop (text : List Char) : List String → Option (List Char)
  | [] => none
  | f :: fs =>
    match fieldPatternLoop text (fieldTemplates f) with
    | some r => some r
    | none => fieldNamesLoop text fs

/-- `[:\s]*([A-Za-z0-9][A-Za-z0-9\s,\.-]+?)(?=\s*\n|\s*[A-Z][a-z]+\s*:|$)`,
flagless (the general fallback of lines 2069-2080). -/
def reFieldFallback : RE :=
  cats [colonWsStar,
    .group 1 (cats [chAlnum,
      rePlus false (.ch (fun c => c.isAlphanum || pySpace c || c = ',' || c = '.' ||
        c = '-'))]),
    .look (alts [cats [wsStar, lit1 '\n'],
      cats [wsStar, clsUpper, rePlus true (.ch Char.isLower), wsStar, lit1 ':'],
      .eos])]

def fieldGeneralFallback (text : List Char) : List String → Option (List Char)
  | [] => none
  | f :: fs =>
    match findSeq (pyLower f.data) (pyLower text) with
    | some pos =>
      let fin := pos + f.data.length
      let after := pySlice text fin (fin + 100)
      match pySearch reFieldFallback after with
      | some m =>
        let r := pyStrip ((grp m 1).getD [])
        if 2 < r.length && r.length < 100 then some r
        else fieldGeneralFallback text fs
      | none => fieldGeneralFallback text fs
    | none => fieldGeneralFallback text fs

/-- `extract_field_value` (lines 2023-2082). -/
def extract_field_value (text : List Char) (names : List String) (dflt : List Char) :
    List Char :=
  match fieldNamesLoop text names with
  | some r => r
  | none =>
    match fieldGeneralFallback text names with
    | some r => r
    | none => dflt

end PdfExtractor

namespace PdfExtractor

/-! ### Record assembly: `create_ihc_excel` (lines 898-987) and
`create_omniseq_excel` (lines 989-1249).  The Excel writing is the external
spreadsheet sink; the embeddings return the assembled rows (column name
paired with cell value, in the source's column order). -/

abbrev Row := List (List Char × List Char)

/-- Python `str.capitalize()`. -/
def pyCapitalize : List Char → List Char
  | [] => []
  | c :: rest => c.toUpper :: rest.map Char.toLower

/-- The `Final interpretation` computation of `create_ihc_excel`
(lines 927-932): the FOLR1 interpretation, defaulting to `'Positive'` when
it is `'N/A'`, capitalized otherwise. -/
def ihc_final_interpretation (text : List Char) : List Char :=
  let i := determine_folr1_interpretation text
  if i = na then "Positive".data else pyCapitalize i

/-- `score_patterns` (lines 911-915), IGNORECASE. -/
def score_patterns : List RE :=
  [ cats [grpDigits 1, lit1 '%', wsPlus, litCI "positive", wsPlus, litCI "viable", wsPlus,
      litCI "tumo", reOpt true (lit1CI 'u'), lit1CI 'r', wsPlus, litCI "cells"],
    cats [grpDigits 1, lit1 '%', wsPlus, litCI "positive"],
    cats [grpDigits 1, lit1 '%', lazyStar dotNL, litCI "tumo", reOpt true (lit1CI 'u'),
      lit1CI 'r', wsPlus, litCI "cells"] ]

/-- The score extraction of lines 916-921. -/
def ihcScore (text : List Char) : List Char :=
  match searchGroup1Loop text score_patterns with
  | some g => g ++ "% positive viable tumour cells".data
  | none => na

/-- `>=?\s*([0-9]+)%\s*=\s*positive` (line 924), IGNORECASE. -/
def reCutoff : RE :=
  cats [lit1 '>', reOpt true (lit1 '='), wsStar, grpDigits 1, lit1 '%', wsStar, lit1 '=',
    wsStar, litCI "positive"]

/-- The cutoff extraction of lines 924-925. -/
def ihcCutoff (text : List Char) : List Char :=
  match pySearch reCutoff text with
  | some m => ">=".data ++ (grp m 1).getD [] ++ "% = positive".data
  | none => ">=75% = positive".data

/-- `Year of birth[:\s]+([0-9]{4})` with the `extract_pattern` flags. -/
def reYearOfBirth : RE :=
  cats [litCI "Year of birth", rePlus true (.ch (fun c => c = ':' || pySpace c)),
    .group 1 (repN 4 reDigit)]

/-- `create_ihc_excel` (lines 898-987): the single IHC row. -/
def create_ihc_excel (text : List Char) : Row :=
  [ ("Disease name".data,
      extract_field_value text ["Disease", "Disease name", "Diagnosis"]
        "Epithelial ovarian cancer".data),
    ("Panel".data,
      extract_field_value text ["Panel", "Assay", "Test"] "FOLR1 Ventana RxDx Assay".data),
    ("Tumour type".data,
      extract_field_value text ["Tumour type", "Tumor type", "Histology"] "Ovary".data),
    ("Biopsy location".data,
      extract_field_value text ["Biopsy location", "Sample site", "Location"] "Ovary".data),
    ("IHC test name".data,
      extract_field_value text ["IHC test", "Test name", "FOLR1", "FolR1"] "FOLR1".data),
    ("Clone".data, extract_field_value text ["Clone", "Antibody clone"] "FOLR1-2.1".data),
    ("Score".data, ihcScore text),
    ("Expression cut-off criteria".data, ihcCutoff text),
    ("Final interpretation".data, ihc_final_interpretation text),
    ("Reporting date".data,
      extract_field_value text ["Report date", "Reporting date", "Date"] "04/06/2023".data),
    ("Subject ID".data,
      extract_field_value text ["Subject ID", "Patient ID", "ID"] "A23-2034-0000014".data),
    ("Year of birth".data,
      (extract_pattern text (Rule.valid reYearOfBirth) (some [])).getD []),
    ("Gender".data, extract_field_value text ["Gender", "Sex"] "Female".data) ]

/-- The declared output schema (`columns`, lines 1033-1041). -/
def omniseqColumnsS : List String :=
  ["Subject ID", "Trial ID", "Site ID", "Report Date", "Collection Date", "Gender",
   "Disease", "Panel", "Sensitivity (from Report)", "Specificity (from Report)",
   "Methodology", "Nucleic Acid", "Library Prep", "Platform", "Tumor Fraction (%)",
   "LOH", "Microsatellite Instability Status", "Tumor Mutational Burden (Muts/Mb)",
   "Gene with co-occurring result", "Transcript ID", "cDNA Change", "Amino Acid Change",
   "Build", "Chromosome", "Location", "Variant type", "Clinical significance",
   "Allele Fraction (%)", "Copy Number", "Gene Expression Qualitative", "dbSNP ID",
   "COSMIC ID", "Depth at Variant", "Genotype", "Zygosity", "Type of Region Analyzed",
   "IHC-PDL1_Antibody", "PDL1 Results"]

def omniseqColumns : List (List Char) := omniseqColumnsS.map String.data

/-- The `Library Prep` constant of line 1118 (verbatim, typos included). -/
def libraryPrep : List Char :=
  ("Hybrid capture-selected libraries are sequenced to high uniform depth (targeting " ++
   ">150X median coverage with >90% of exons at coverage >50X) and the sequnence data " ++
   "is analyzed to detect genomci variants and signatures.").data

/-- One per-variant row (lines 1105-1145), keys in the dict-literal order. -/
def variantRow (subject trial site rdate cdate gender disease panel sens spec tf msi
    tmb : List Char) (v : Variant) : Row :=
  [ ("Subject ID".data, subject), ("Trial ID".data, trial), ("Site ID".data, site),
    ("Report Date".data, rdate), ("Collection Date".data, cdate),
    ("Gender".data, gender), ("Disease".data, disease), ("Panel".data, panel),
    ("Sensitivity (from Report)".data, sens), ("Specificity (from Report)".data, spec),
    ("Methodology".data, "NGS".data), ("Nucleic Acid".data, v.nucleic_acid),
    ("Library Prep".data, libraryPrep), ("Platform".data, na),
    ("Tumor Fraction (%)".data, tf), ("LOH".data, na),
    ("Microsatellite Instability Status".data, msi),
    ("Tumor Mutational Burden (Muts/Mb)".data, tmb),
    ("Gene with co-occurring result".data, v.gene), ("Transcript ID".data, v.transcript),
    ("cDNA Change".data, v.cdna_change), ("Amino Acid Change".data, v.aa_change),
    ("Build".data, v.build), ("Chromosome".data, v.chromosome),
    ("Location".data, v.location), ("Variant type".data, v.variant_type),
    ("Clinical significance".data, v.significance),
    ("Allele Fraction (%)".data, v.allele_fraction), ("Copy Number".data, v.copy_number),
    ("Gene Expression Qualitative".data, na), ("dbSNP ID".data, v.dbsnp_id),
    ("COSMIC ID".data, v.cosmic_id), ("Depth at Variant".data, v.depth),
    ("Genotype".data, v.genotype), ("Zygosity".data, v.zygosity),
    ("Type of Region Analyzed".data, na), ("IHC-PDL1_Antibody".data, na),
    ("PDL1 Results".data, na) ]

/-- The PD-L1 row (lines 1150-1190). -/
def pdl1Row (subject trial site rdate cdate gender disease panel sens spec tf msi
    tmb antibody result : List Char) : Row :=
  [ ("Subject ID".data, subject), ("Trial ID".data, trial), ("Site ID".data, site),
    ("Report Date".data, rdate), ("Collection Date".data, cdate),
    ("Gender".data, gender), ("Disease".data, disease), ("Panel".data, panel),
    ("Sensitivity (from Report)".data, sens), ("Specificity (from Report)".data, spec),
    ("Methodology".data, "IHC".data), ("Nucleic Acid".data, na),
    ("Library Prep".data, na), ("Platform".data, na),
    ("Tumor Fraction (%)".data, tf), ("LOH".data, na),
    ("Microsatellite Instability Status".data, msi),
    ("Tumor Mutational Burden (Muts/Mb)".data, tmb),
    ("Gene with co-occurring result".data, na), ("Transcript ID".data, na),
    ("cDNA Change".data, na), ("Amino Acid Change".data, na),
    ("Build".data, na), ("Chromosome".data, na), ("Location".data, na),
    ("Variant type".data, na), ("Clinical significance".data, na),
    ("Allele Fraction (%)".data, na), ("Copy Number".data, na),
    ("Gene Expression Qualitative".data, na), ("dbSNP ID".data, na),
    ("COSMIC ID".data, na), ("Depth at Variant".data, na), ("Genotype".data, na),
    ("Zygosity".data, na), ("Type of Region Analyzed".data, na),
    ("IHC-PDL1_Antibody".data, antibody), ("PDL1 Results".data, result) ]

/-- The metadata-only default row (lines 1193-1209): every column `'N/A'`,
then the metadata updates applied (in particular `Methodology = 'NGS'` and
`Nucleic Acid = 'DNA'`). -/
def default_row (subject trial site rdate cdate gender disease panel tf msi
    tmb : List Char) : Row :=
  let updates : Row :=
    [ ("Subject ID".data, subject), ("Trial ID".data, trial), ("Site ID".data, site),
      ("Report Date".data, rdate), ("Collection Date".data, cdate),
      ("Gender".data, gender), ("Disease".data, disease), ("Panel".data, panel),
      ("Methodology".data, "NGS".data), ("Nucleic Acid".data, "DNA".data),
      ("Tumor Fraction (%)".data, tf),
      ("Microsatellite Instability Status".data, msi),
      ("Tumor Mutational Burden (Muts/Mb)".data, tmb) ]
  omniseqColumns.map (fun c => (c, (updates.lookup c).getD na))

/-- The variant-injection step of `create_omniseq_excel` (lines 1046-1098):
whenever fewer than three variants were extracted, the three hardcoded
expected variants are appended for every gene not yet present. -/
def omniseqVariants (text : List Char) : List Variant :=
  let variants0 := extract_genetic_variants_accurate text
  if variants0.length < 3 then
    let v1 := if variants0.any (fun v => v.gene = "RB1".data) then variants0
      else variants0 ++ [rb1Fixed]
    let v2 := if v1.any (fun v => v.gene = "RET".data) then v1 else v1 ++ [retFixed]
    if v2.any (fun v => v.gene = "NPM1".data) then v2 else v2 ++ [npm1Fixed]
  else variants0

/-- The row assembly of `create_omniseq_excel` (lines 994-1210) given the
already-extracted panel value. -/
def omniseqRowsCore (text panel : List Char) : List Row :=
  let subject := extract_accurate_subject_id text
  let trial := extract_accurate_trial_id text
  let site := extract_accurate_site_id text
  let rdate := extract_accurate_report_date text
  let cdate := extract_accurate_collection_date text
  let gender := extract_accurate_gender text
  let disease := extract_accurate_disease text
  let sens := extract_field_value text
    ["Sensitivity", "Sens", "Detection Sensitivity", "Analytical Sensitivity"] na
  let spec := extract_field_value text
    ["Specificity", "Spec", "Detection Specificity", "Analytical Specificity"] na
  let _methodology := extract_field_value text
    ["NGS", "Next Generation Sequencing", "Methodology", "Method", "Technology",
     "Platform"] "NGS".data
  let tf0 := extract_tumor_fraction_accurate text
  let tf := if tf0 = na then "30".data else tf0
  let msi0 := extract_msi_status_accurate text
  let msi := if msi0 = na then "MS-Stable".data else msi0
  let tmb0 := extract_tmb_accurate text
  let tmb := if tmb0 = na then "4.3".data else tmb0
  let rows := (omniseqVariants text).map
    (variantRow subject trial site rdate cdate gender disease panel sens spec tf msi tmb)
  let rows := match extract_pdl1_results text with
    | some pr => rows ++
        [pdl1Row subject trial site rdate cdate gender disease panel sens spec tf msi
          tmb pr.1 pr.2]
    | none => rows
  if rows.isEmpty then
    [default_row subject trial site rdate cdate gender disease panel tf msi tmb]
  else rows

/-- `create_omniseq_excel` (lines 989-1249): the assembled `rows` list.
`none` renders the one uncaught exception inside the body (the IndexError
of `extract_accurate_panel`), which the surrounding `try` re-raises. -/
def create_omniseq_excel (text : List Char) : Option (List Row) :=
  (extract_accurate_panel text).map (omniseqRowsCore text)

end PdfExtractor

namespace PdfExtractor

/-! ## Theorems about the embedded extraction core -/

/-- C2: For every input text, both `extract_genetic_variants` and the
enhanced fallback path `enhanced_fallback_gene_extraction` return at most
five variants — each ends in `variants[:5]`. -/
theorem variant_cap_invariant (text : List Char) :
    (extract_genetic_variants text).length ≤ 5 ∧
    (enhanced_fallback_gene_extraction text).length ≤ 5 := by
  constructor
  · simp only [extract_genetic_variants, List.length_take]
    exact Nat.min_le_left _ _
  · simp only [enhanced_fallback_gene_extraction, List.length_take]
    exact Nat.min_le_left _ _

/-- C7: `is_ihc_report` returns IHC exactly when the IHC keyword hit count
strictly exceeds the genetic one, and a tie (in particular zero-zero)
classifies as Genetic. -/
theorem classifier_strict_majority (text : List Char) :
    (is_ihc_report text = true ↔
      keywordHits genetic_keywords text < keywordHits ihc_keywords text) ∧
    (keywordHits ihc_keywords text = keywordHits genetic_keywords text →
      is_ihc_report text = false) := by
  refine ⟨by simp [is_ihc_report], fun h => by simp [is_ihc_report, h]⟩

/-- Witness for C7 at a concrete tie: the empty-ish text `"x"` has zero hits
on both keyword sets and classifies as Genetic. -/
theorem classifier_strict_majority_witness :
    is_ihc_report "x".data = false ∧
    (is_ihc_report "x".data = true ↔
      keywordHits genetic_keywords "x".data < keywordHits ihc_keywords "x".data) :=
  ⟨(classifier_strict_majority "x".data).2 (by decide),
   (classifier_strict_majority "x".data).1⟩

/-- C9: a malformed rule never aborts resolution: `extract_pattern` yields
the default for it (both for a `None` default and the conventional `'N/A'`),
and `extract_multiple_patterns` over a rule list containing a malformed rule
equals the resolution over the list with that rule removed — the remaining
rules are still evaluated normally. -/
theorem malformed_rule_harmless (text : List Char) (rules1 rules2 : List Rule)
    (dflt : List Char) :
    extract_pattern text Rule.malformed none = none ∧
    extract_pattern text Rule.malformed (some na) = some na ∧
    extract_multiple_patterns text (rules1 ++ Rule.malformed :: rules2) dflt =
      extract_multiple_patterns text (rules1 ++ rules2) dflt := by
  refine ⟨rfl, rfl, ?_⟩
  induction rules1 with
  | nil => simp [extract_multiple_patterns, extract_pattern]
  | cons r rs ih =>
    simp only [List.cons_append, extract_multiple_patterns]
    cases extract_pattern text r none with
    | none => exact ih
    | some res =>
      by_cases hna : res = "N/A".data
      · simp [hna, ih]
      · simp [hna]

end PdfExtractor

namespace PdfExtractor

/-- The rule realized by the Python pattern `(N/A)`: a well-formed regex
whose capture is the literal text `N/A`. -/
def ruleNA : Rule := .valid (.group 1 (lit "N/A"))

/-- Counterexample to C5 as stated: on the text `"value: N/A"` the single
rule `(N/A)` produces the non-empty cleaned capture `N/A`, yet
`extract_multiple_patterns` does not return it and falls through to the
default — the resolver also skips captures equal to the reserved string
`'N/A'`, not only empty ones. -/
theorem resolver_skips_na_capture_cex :
    extract_pattern "value: N/A".data ruleNA none = some "N/A".data ∧
    "N/A".data ≠ ([] : List Char) ∧
    extract_multiple_patterns "value: N/A".data [ruleNA] "DEFAULT".data =
      "DEFAULT".data := by
  refine ⟨by decide, by decide, by decide⟩

/-- C5 (amended): the resolver returns the cleaned capture of the first rule
whose capture is non-empty after cleanup *and different from the string
`'N/A'`*; rules with no match, an empty cleaned capture, or the cleaned
capture `'N/A'` are skipped, and the default is returned when no rule
qualifies.  The second conjunct records that an empty cleaned capture is
indeed impossible as a result (such rules yield the passed default). -/
theorem resolver_first_good_rule (text : List Char) (rules : List Rule)
    (dflt : List Char) :
    extract_multiple_patterns text rules dflt =
      ((rules.map (fun r => extract_pattern text r none)).filterMap
        (fun o => match o with
          | some s => if s = "N/A".data then none else some s
          | none => none)).headD dflt ∧
    ∀ r, extract_pattern text r none ≠ some [] := by
  constructor
  · induction rules with
    | nil => rfl
    | cons r rs ih =>
      simp only [extract_multiple_patterns, List.map_cons, List.filterMap_cons]
      cases extract_pattern text r none with
      | none => exact ih
      | some res =>
        by_cases hna : res = "N/A".data
        · simp [hna, ih]
        · simp [hna]
  · intro r hcontra
    cases r with
    | malformed => simp [extract_pattern] at hcontra
    | valid p =>
      unfold extract_pattern at hcontra
      repeat' split at hcontra
      all_goals simp_all [List.isEmpty_iff]

end PdfExtractor

namespace PdfExtractor

/-- Modelled from the claim's words, for comparison with the code: the
generic placeholder shape of three digits, a hyphen, and three digits. -/
def specPlaceholderShape (w : List Char) : Bool :=
  match w with
  | [a, b, c, d, e, f, g] =>
    a.isDigit && b.isDigit && c.isDigit && d = '-' && e.isDigit && f.isDigit && g.isDigit
  | _ => false

/-- 51 copies of `123-456`, blank-separated (407 characters). -/
def cexRedactedText : List Char :=
  ((List.replicate 51 "123-456".data).intersperse [' ']).flatten

/-- Counterexample to C8 as stated: a 407-character text in which every one
of the 51 whitespace-delimited tokens has the three-digits, hyphen,
three-digits shape — yet `is_redacted_pdf` returns `false`, because the
code's placeholder test `re.match(r'^0{3}-1{3}$', word)` accepts only the
literal token `000-111`. -/
theorem redaction_placeholder_shape_cex :
    100 ≤ cexRedactedText.length ∧
    (pySplit cexRedactedText).length <
      2 * (pySplit cexRedactedText).countP specPlaceholderShape ∧
    is_redacted_pdf cexRedactedText = false := by
  refine ⟨by decide, by decide, by decide⟩

/-- C8 (amended): the majority-placeholder branch fires — regardless of how
many explicit redaction markers appear — once the stripped text has at
least 100 characters, there are more than 50 whitespace-delimited tokens,
and more than half of them are exactly the literal placeholder `000-111`
(the code's `^0{3}-1{3}$`). -/
theorem redaction_placeholder_amended (text : List Char)
    (h1 : 100 ≤ (pyStrip text).length)
    (h2 : 50 < (pySplit text).length)
    (h3 : (pySplit text).length <
      2 * (pySplit text).countP (fun w => (pyMatch re000111 w).isSome)) :
    is_redacted_pdf text = true := by
  unfold is_redacted_pdf
  rw [if_neg (by omega)]
  rw [if_pos (by simp [h2, h3])]

/-- Witness for C8 (amended) at 51 copies of `000-111`. -/
theorem redaction_placeholder_amended_witness :
    is_redacted_pdf (((List.replicate 51 "000-111".data).intersperse [' ']).flatten) =
      true :=
  redaction_placeholder_amended _ (by decide) (by decide) (by decide)

end PdfExtractor

namespace PdfExtractor

/-- The percentage loop only ever produces `positive` or `negative`. -/
theorem folr1PercentLoop_range (text : List Char) (ps : List RE) (r : List Char)
    (h : folr1PercentLoop text ps = some r) :
    r = "positive".data ∨ r = "negative".data := by
  induction ps with
  | nil => simp [folr1PercentLoop] at h
  | cons p ps ih =>
    unfold folr1PercentLoop at h
    cases hs : pySearch p text with
    | none => simp only [hs] at h; exact ih h
    | some m =>
      simp only [hs] at h
      cases hg : grp m 1 with
      | none => simp only [hg] at h; exact ih h
      | some g =>
        simp only [hg] at h
        cases hf : pyFloat g with
        | none => simp only [hf] at h; exact ih h
        | some v =>
          simp only [hf, Option.some.injEq] at h
          subst h
          by_cases hv : 75 * 10 ^ v.2 ≤ v.1
          · left; simp [hv]
          · right; simp [hv]

/-- `determine_folr1_interpretation` only ever returns `positive`,
`negative` or `N/A`. -/
theorem determine_folr1_range (text : List Char) :
    determine_folr1_interpretation text = "positive".data ∨
    determine_folr1_interpretation text = "negative".data ∨
    determine_folr1_interpretation text = na := by
  unfold determine_folr1_interpretation
  cases hp : folr1FromPercent text with
  | some r =>
    rcases folr1PercentLoop_range text folr1_patterns r hp with h | h
    · left; simpa using h
    · right; left; simpa using h
  | none =>
    by_cases h1 :
        (pySearch (cats [litCI "FOLR1", lazyStar dotNL, litCI "positive"]) text).isSome
    · left; simp [h1]
    · by_cases h2 :
          (pySearch (cats [litCI "FOLR1", lazyStar dotNL, litCI "negative"]) text).isSome
      · right; left; simp [h1, h2]
      · right; right; simp [h1, h2]; rfl

/-- C6: the `Final interpretation` column of the IHC row is always
`Positive` or `Negative`, never the sentinel: the assembler substitutes
the default `Positive` whenever `determine_folr1_interpretation` resolves
nothing, and capitalizes the interpretation otherwise. -/
theorem ihc_final_interpretation_never_na (text : List Char) :
    (create_ihc_excel text).lookup "Final interpretation".data =
        some "Positive".data ∨
    (create_ihc_excel text).lookup "Final interpretation".data =
        some "Negative".data := by
  have hl : (create_ihc_excel text).lookup "Final interpretation".data =
      some (ihc_final_interpretation text) := rfl
  rw [hl]
  unfold ihc_final_interpretation
  rcases determine_folr1_range text with h | h | h
  · left; rw [h]; simp [na]; decide
  · right; rw [h]; simp [na]; decide
  · left; simp [h]

end PdfExtractor

namespace PdfExtractor

/-- C1: when a percentage adjacent to the FOLR1 marker is found (the first
pattern's capture parses as a float `p`), the interpretation is `positive`
exactly when `p` is at least the threshold 75 (inclusive); when no pattern
resolves a percentage, the existing textual `positive`/`negative` label
adjacent to the marker decides, and failing that the sentinel `N/A` is
returned; in particular `75%` after FOLR1 yields positive and `74.9%`
yields negative. -/
theorem folr1_threshold_and_fallback (t1 t2 g : List Char) (p : Nat × Nat)
    (h1 : (pySearch folr1Pat1 t1).bind (fun m => grp m 1) = some g)
    (h2 : pyFloat g = some p)
    (h3 : folr1FromPercent t2 = none) :
    determine_folr1_interpretation t1 =
      (if 75 * 10 ^ p.2 ≤ p.1 then "positive".data else "negative".data) ∧
    determine_folr1_interpretation t2 =
      (if (pySearch (cats [litCI "FOLR1", lazyStar dotNL, litCI "positive"]) t2).isSome
        then "positive".data
        else if (pySearch (cats [litCI "FOLR1", lazyStar dotNL, litCI "negative"])
          t2).isSome
        then "negative".data
        else na) ∧
    determine_folr1_interpretation
      "FOLR1 expression: 75% positive viable tumor cells".data = "positive".data ∧
    determine_folr1_interpretation
      "FOLR1 expression: 74.9% positive viable tumor cells".data = "negative".data := by
  refine ⟨?_, ?_, by decide, by decide⟩
  · have hfp : folr1FromPercent t1 =
        some (if 75 * 10 ^ p.2 ≤ p.1 then "positive".data else "negative".data) := by
      unfold folr1FromPercent folr1_patterns
      cases hs : pySearch folr1Pat1 t1 with
      | none => rw [hs] at h1; simp at h1
      | some m =>
        rw [hs] at h1
        simp only [Option.some_bind] at h1
        simp [folr1PercentLoop, hs, h1, h2]
    unfold determine_folr1_interpretation
    rw [hfp]
  · unfold determine_folr1_interpretation
    simp only [h3]
    rfl

/-- Witness for C1 at `FOLR1 80% x` (percentage path) and `no marker here`
(fallback path). -/
theorem folr1_threshold_and_fallback_witness :
    determine_folr1_interpretation "FOLR1 80% x".data =
      (if 75 * 10 ^ (80, 0).2 ≤ (80, 0).1 then "positive".data else "negative".data) ∧
    determine_folr1_interpretation "no marker here".data =
      (if (pySearch (cats [litCI "FOLR1", lazyStar dotNL, litCI "positive"])
          "no marker here".data).isSome
        then "positive".data
        else if (pySearch (cats [litCI "FOLR1", lazyStar dotNL, litCI "negative"])
          "no marker here".data).isSome
        then "negative".data
        else na) ∧
    determine_folr1_interpretation
      "FOLR1 expression: 75% positive viable tumor cells".data = "positive".data ∧
    determine_folr1_interpretation
      "FOLR1 expression: 74.9% positive viable tumor cells".data = "negative".data :=
  folr1_threshold_and_fallback "FOLR1 80% x".data "no marker here".data "80".data (80, 0)
    (by decide) (by decide) (by decide)

end PdfExtractor

namespace PdfExtractor

theorem base_gene (g : List Char) : (Variant.base g).gene = g := rfl

theorem gpBuild_gene (text gname : List Char) (m : MatchRes) :
    (gpBuild text gname m).gene = gname := rfl

/-- `l2` extends `l1` by a deduplicated tail: the added variants carry
pairwise-distinct gene symbols, none of which already occurs in `l1`. -/
def GrewDedup (l1 l2 : List Variant) : Prop :=
  ∃ a, l2 = l1 ++ a ∧ (a.map Variant.gene).Nodup ∧
    ∀ g ∈ a.map Variant.gene, g ∉ l1.map Variant.gene

theorem GrewDedup.refl (l : List Variant) : GrewDedup l l :=
  ⟨[], by simp, by simp, by simp⟩

theorem GrewDedup.trans {l1 l2 l3 : List Variant}
    (h12 : GrewDedup l1 l2) (h23 : GrewDedup l2 l3) : GrewDedup l1 l3 := by
  obtain ⟨a, ha, hand, hadisj⟩ := h12
  obtain ⟨b, hb, hbnd, hbdisj⟩ := h23
  refine ⟨a ++ b, by rw [hb, ha, List.append_assoc], ?_, ?_⟩
  · rw [List.map_append]
    refine List.Nodup.append hand hbnd ?_
    intro g hga hgb
    exact hbdisj g hgb (by rw [ha]; simp [hga])
  · intro g hg
    rw [List.map_append, List.mem_append] at hg
    rcases hg with hg | hg
    · exact hadisj g hg
    · intro hl1
      exact hbdisj g hg (by rw [ha]; simp [hl1])

/-- The guarded-append fold (`if not any(v['gene'] == ...): append`) only
ever extends its accumulator by fresh, pairwise-distinct genes. -/
theorem foldl_addIfNewGene_spec (cands : List Variant) :
    ∀ acc : List Variant, GrewDedup acc (cands.foldl addIfNewGene acc) := by
  induction cands with
  | nil => intro acc; simpa using GrewDedup.refl acc
  | cons c cs ih =>
    intro acc
    rw [List.foldl_cons]
    by_cases hmem : acc.any (fun w => w.gene = c.gene)
    · rw [show addIfNewGene acc c = acc from by simp [addIfNewGene, hmem]]
      exact ih acc
    · rw [show addIfNewGene acc c = acc ++ [c] from by simp [addIfNewGene, hmem]]
      refine GrewDedup.trans ?_ (ih (acc ++ [c]))
      refine ⟨[c], rfl, by simp, ?_⟩
      intro g hg
      simp only [List.map_cons, List.map_nil, List.mem_singleton] at hg
      subst hg
      simp only [List.any_eq_true, decide_eq_true_eq] at hmem
      intro hin
      rw [List.mem_map] at hin
      obtain ⟨w, hw, hwg⟩ := hin
      exact hmem ⟨w, hw, hwg⟩

/-- The `gene_patterns` match loop has the same dedup discipline: a match is
appended only when its gene (which is exactly the gene of the variant it
builds) is not yet present. -/
theorem foldl_gpStep_spec (text : List Char) (ms : List MatchRes) :
    ∀ acc : List Variant, GrewDedup acc (ms.foldl (gpStep text) acc) := by
  induction ms with
  | nil => intro acc; simpa using GrewDedup.refl acc
  | cons m ms ih =>
    intro acc
    rw [List.foldl_cons]
    cases hg : grp m 1 with
    | none =>
      rw [show gpStep text acc m = acc from by simp [gpStep, hg]]
      exact ih acc
    | some gname =>
      by_cases hmem : acc.any (fun v => v.gene = gname)
      · rw [show gpStep text acc m = acc from by simp [gpStep, hg, hmem]]
        exact ih acc
      · rw [show gpStep text acc m = acc ++ [gpBuild text gname m] from by
          simp [gpStep, hg, hmem]]
        refine GrewDedup.trans ?_ (ih (acc ++ [gpBuild text gname m]))
        refine ⟨[gpBuild text gname m], rfl, by simp, ?_⟩
        intro g hgm
        simp only [List.map_cons, List.map_nil, List.mem_singleton, gpBuild_gene] at hgm
        subst hgm
        simp only [List.any_eq_true, decide_eq_true_eq] at hmem
        intro hin
        rw [List.mem_map] at hin
        obtain ⟨w, hw, hwg⟩ := hin
        exact hmem ⟨w, hw, hwg⟩

theorem genePatternLoop_spec (text : List Char) (acc : List Variant) :
    GrewDedup acc (genePatternLoop text acc) := by
  unfold genePatternLoop
  generalize gene_patterns = ps
  induction ps generalizing acc with
  | nil => simpa using GrewDedup.refl acc
  | cons p ps ih =>
    rw [List.foldl_cons]
    exact GrewDedup.trans (foldl_gpStep_spec text (pyFinditer p text) acc) (ih _)

theorem find_mentioned_genes_nodup (text : List Char) :
    (find_mentioned_genes text).Nodup := by
  unfold find_mentioned_genes
  have h1 : (mentioned_genes.map String.data).Nodup := by decide
  have h2 : ((mentioned_genes.filter
      (fun g => (pySearch (geneWordRe g) text).isSome)).map String.data).Sublist
      (mentioned_genes.map String.data) :=
    List.Sublist.map String.data (List.filter_sublist _)
  exact h1.sublist h2

end PdfExtractor

namespace PdfExtractor

/-- C10 (amended): the strategies after the first keep the dedup discipline.
The final (pre-cap) list is the stage-1 table parse followed by a tail whose
gene symbols are pairwise distinct and absent from stage 1 — no later
strategy adds a second variant for an already-assigned gene or overwrites
one — and the returned list is its five-element cap.  (Stage 1 itself may
emit duplicate genes, which is what refutes the claim as stated.) -/
theorem egv_later_stage_dedup (text : List Char) :
    GrewDedup (egvStage1 text) (egvBeforeCap text) ∧
    extract_genetic_variants text = (egvBeforeCap text).take 5 := by
  refine ⟨?_, rfl⟩
  have h12 : GrewDedup (egvStage1 text) (egvAfter2 text) := by
    unfold egvAfter2; split
    · exact foldl_addIfNewGene_spec _ _
    · exact GrewDedup.refl _
  have h23 : GrewDedup (egvAfter2 text) (egvAfter3 text) := by
    unfold egvAfter3; split
    · exact foldl_addIfNewGene_spec _ _
    · exact GrewDedup.refl _
  have h34 : GrewDedup (egvAfter3 text) (egvAfter4 text) := by
    unfold egvAfter4; split
    · exact foldl_addIfNewGene_spec _ _
    · exact GrewDedup.refl _
  have h45 : GrewDedup (egvAfter4 text) (egvAfter5 text) := genePatternLoop_spec _ _
  have h15 : GrewDedup (egvStage1 text) (egvAfter5 text) :=
    ((h12.trans h23).trans h34).trans h45
  unfold egvBeforeCap
  split
  · rename_i hemp
    obtain ⟨a, ha, _, _⟩ := h15
    have h5nil : egvAfter5 text = [] := by
      cases h : egvAfter5 text with
      | nil => rfl
      | cons x xs => rw [h] at hemp; simp [List.isEmpty] at hemp
    have hs1 : egvStage1 text = [] := by
      rw [h5nil] at ha
      exact (List.append_eq_nil.mp ha.symm).1
    rw [hs1]
    refine ⟨((find_mentioned_genes text).take 3).map Variant.base, by simp, ?_, by simp⟩
    have : (((find_mentioned_genes text).take 3).map Variant.base).map Variant.gene =
        (find_mentioned_genes text).take 3 := by
      rw [List.map_map]
      apply List.map_id''
      intro g
      exact base_gene g
    rw [this]
    exact (find_mentioned_genes_nodup text).sublist (List.take_sublist _ _)
  · exact h15

/-- Counterexample to C10 as stated: on this table-shaped text the
first-strategy table parse emits three variants that all carry the gene
symbol `TP53`, so the returned list's gene symbols are not pairwise
distinct. -/
theorem egv_duplicate_genes_cex :
    (extract_genetic_variants
        "Gene Alteration Location VAF\nTP53  c.4del  x\nTP53  c.5del  x\nTP53  c.6del  x".data).map
      Variant.gene = ["TP53".data, "TP53".data, "TP53".data] ∧
    ¬ ((extract_genetic_variants
        "Gene Alteration Location VAF\nTP53  c.4del  x\nTP53  c.5del  x\nTP53  c.6del  x".data).map
      Variant.gene).Nodup := by
  have h : (extract_genetic_variants
      "Gene Alteration Location VAF\nTP53  c.4del  x\nTP53  c.5del  x\nTP53  c.6del  x".data).map
      Variant.gene = ["TP53".data, "TP53".data, "TP53".data] := by decide
  refine ⟨h, ?_⟩
  rw [h]
  decide

end PdfExtractor

namespace PdfExtractor

theorem ite_isEmpty_len {α : Type} (l : List α) (x : α) :
    1 ≤ (if l.isEmpty then [x] else l).length := by
  cases l <;> simp

/-- The assembled omniseq table is never empty. -/
theorem omniseqRowsCore_never_empty (text panel : List Char) :
    1 ≤ (omniseqRowsCore text panel).length := by
  simp only [omniseqRowsCore]
  exact ite_isEmpty_len _ _

/-- With zero extracted variants, the injection step supplies exactly the
three hardcoded expected variants. -/
theorem omniseqVariants_of_empty (text : List Char)
    (h : extract_genetic_variants_accurate text = []) :
    omniseqVariants text = [rb1Fixed, retFixed, npm1Fixed] := by
  simp only [omniseqVariants, h]
  decide

/-- C3 (amended): for a Genetic-classified text the assembled table is never
empty, but a text with zero detected variants and no PD-L1 result yields
*three* rows (the injected hardcoded RB1/RET/NPM1 variants), not the single
metadata-only default row of the claim — that branch is unreachable. -/
theorem omniseq_nonempty_and_injected (text : List Char)
    (_hihc : is_ihc_report text = false)
    (h : (create_omniseq_excel text).isSome) :
    1 ≤ ((create_omniseq_excel text).getD []).length ∧
    (extract_genetic_variants_accurate text = [] → extract_pdl1_results text = none →
      ((create_omniseq_excel text).getD []).length = 3) := by
  cases hp : extract_accurate_panel text with
  | none => simp [create_omniseq_excel, hp] at h
  | some panel =>
    have hc : create_omniseq_excel text = some (omniseqRowsCore text panel) := by
      simp [create_omniseq_excel, hp]
    rw [hc]
    simp only [Option.getD_some]
    refine ⟨omniseqRowsCore_never_empty text panel, ?_⟩
    intro h1 h2
    simp only [omniseqRowsCore, h2, omniseqVariants_of_empty text h1]
    simp [List.isEmpty]

/-- Witness for C3 (amended) at the variant-free Genetic text `zzz`. -/
theorem omniseq_nonempty_and_injected_witness :
    1 ≤ ((create_omniseq_excel "zzz".data).getD []).length ∧
    ((create_omniseq_excel "zzz".data).getD []).length = 3 := by
  have h := omniseq_nonempty_and_injected "zzz".data (by decide) (by decide)
  exact ⟨h.1, h.2 (by decide) (by decide)⟩

/-- Counterexample to C3 as stated: `zzz` is Genetic-classified, zero
variants are detected and no PD-L1 result is found, yet the assembler emits
three rows — whose variant columns carry the hardcoded genes RB1, RET and
NPM1 rather than the default sentinel. -/
theorem omniseq_zero_variant_rows_cex :
    is_ihc_report "zzz".data = false ∧
    extract_genetic_variants_accurate "zzz".data = [] ∧
    extract_pdl1_results "zzz".data = none ∧
    (create_omniseq_excel "zzz".data).map List.length = some 3 ∧
    ((create_omniseq_excel "zzz".data).getD []).map
        (fun r => r.lookup "Gene with co-occurring result".data) =
      [some "RB1".data, some "RET".data, some "NPM1".data] := by
  refine ⟨by decide, by decide, by decide, by decide, by decide⟩

end PdfExtractor

namespace PdfExtractor

theorem lookup_isSome_of_mem_keys {c : List Char} {r : Row}
    (h : c ∈ r.map Prod.fst) : (r.lookup c).isSome := by
  induction r with
  | nil => simp at h
  | cons p ps ih =>
    obtain ⟨k, v⟩ := p
    rw [List.map_cons, List.mem_cons] at h
    by_cases hk : c = k
    · simp [List.lookup, hk]
    · have hbeq : (c == k) = false := by simp [hk]
      simp only [List.lookup, hbeq]
      apply ih
      rcases h with h | h
      · exact absurd h hk
      · exact h

theorem variantRow_keys (s t si rd cd ge d pa se sp tf ms tm : List Char)
    (v : Variant) :
    (variantRow s t si rd cd ge d pa se sp tf ms tm v).map Prod.fst =
      omniseqColumns := rfl

theorem pdl1Row_keys (s t si rd cd ge d pa se sp tf ms tm ab res : List Char) :
    (pdl1Row s t si rd cd ge d pa se sp tf ms tm ab res).map Prod.fst =
      omniseqColumns := rfl

theorem default_row_keys (s t si rd cd ge d pa tf ms tm : List Char) :
    (default_row s t si rd cd ge d pa tf ms tm).map Prod.fst = omniseqColumns := by
  simp only [default_row, List.map_map]
  apply List.map_id''
  intro c
  rfl

/-- Every row assembled by the omniseq record assembler lists exactly the
declared output columns, in order. -/
theorem omniseqRowsCore_keys (text panel : List Char) :
    ∀ r ∈ omniseqRowsCore text panel, r.map Prod.fst = omniseqColumns := by
  intro r hr
  simp only [omniseqRowsCore] at hr
  repeat' split at hr
  all_goals
    first
    | (simp only [List.mem_singleton] at hr
       subst hr
       exact default_row_keys _ _ _ _ _ _ _ _ _ _ _)
    | (rw [List.mem_append] at hr
       rcases hr with hr | hr
       · obtain ⟨v, _, hv⟩ := List.mem_map.mp hr
         rw [← hv]
         exact variantRow_keys _ _ _ _ _ _ _ _ _ _ _ _ _ _
       · simp only [List.mem_singleton] at hr
         subst hr
         exact pdl1Row_keys _ _ _ _ _ _ _ _ _ _ _ _ _ _ _)
    | (obtain ⟨v, _, hv⟩ := List.mem_map.mp hr
       rw [← hv]
       exact variantRow_keys _ _ _ _ _ _ _ _ _ _ _ _ _ _)

/-- C4 (amended, schema half): every declared column of the output schema is
present in every assembled `ReportRecord` — partial records are never
emitted.  (The defaulting half of the claim is refuted separately: an
unresolved column may hold a fabricated hardcoded value instead of the
sentinel.) -/
theorem omniseq_schema_complete (text : List Char) (rows : List Row) (r : Row)
    (c : List Char) (h : create_omniseq_excel text = some rows) (hr : r ∈ rows)
    (hc : c ∈ omniseqColumns) : (r.lookup c).isSome := by
  cases hp : extract_accurate_panel text with
  | none => simp [create_omniseq_excel, hp] at h
  | some panel =>
    simp only [create_omniseq_excel, hp, Option.map_some', Option.some.injEq] at h
    subst h
    apply lookup_isSome_of_mem_keys
    rw [omniseqRowsCore_keys text panel r hr]
    exact hc

/-- Witness for C4 (amended) at `zzz`, first row, column `Subject ID`. -/
theorem omniseq_schema_complete_witness :
    ((((create_omniseq_excel "zzz".data).getD []).headD []).lookup
      "Subject ID".data).isSome := by
  apply omniseq_schema_complete "zzz".data ((create_omniseq_excel "zzz".data).getD [])
    (((create_omniseq_excel "zzz".data).getD []).headD []) "Subject ID".data
  · decide
  · decide
  · decide

/-- Counterexample to C4 as stated: on the text `zzz` no subject id is
resolvable (the text does not even contain the value), yet the emitted row
holds the fabricated `000-111` — a resolved-looking value instead of the
`N/A` sentinel. -/
theorem omniseq_fabricated_default_cex :
    containsSeq "000-111".data "zzz".data = false ∧
    ((create_omniseq_excel "zzz".data).getD []).map
        (fun r => r.lookup "Subject ID".data) =
      [some "000-111".data, some "000-111".data, some "000-111".data] ∧
    "000-111".data ≠ na := by
  refine ⟨by decide, by decide, by decide⟩

end PdfExtractor
